import Mathlib

/-!
Verification of the knowledge-resolution pipeline of the
VehicleDiagnosisAssistant repository (FastAPI/Python).

The Python sources are shallowly embedded over `List Char`:

* `app/services/obd.py`     — `validate_obd_code`, `get_obd_info`
* `app/services/parser.py`  — `parse_message` (code extraction)
* `app/providers/search.py` — `_dedupe_str_list`, `_suggest_checks_from_causes`,
  `_sanitize_summary`, `get_external_obd`

Modelling conventions:

* Python `str` is modelled as `List Char` (`Str`).  The repository only ever
  manipulates ASCII content, so `str.lower`/`str.upper`/`str.strip` and the
  regex classes `\s`, `\w`, `[0-9]` are modelled by their ASCII meaning.
* Async datastore / network calls are oracles supplied as parameters; a call
  either returns a value (`Res.ok`) or raises (`Res.exn`), matching how the
  Python code experiences `await` results.  Every oracle interaction also
  emits an `Ev` event so that "which tier was consulted" is observable.
* Environment variables are an association list (`Env`); the `os.getenv`
  defaulting of each call site is reproduced exactly.
-/

namespace VDA

/-- Python strings, modelled as lists of characters. -/
abbrev Str := List Char

/-- Character set of Python `str.strip()` / regex `\s` (ASCII fragment). -/
def isSpaceC (c : Char) : Bool :=
  c = ' ' || c = '\t' || c = '\n' || c = '\r' || c = '\x0b' || c = '\x0c'

/-- Python `str.lower()` (ASCII). -/
def lowerS (s : Str) : Str := s.map Char.toLower

/-- Python `str.upper()` (ASCII). -/
def upperS (s : Str) : Str := s.map Char.toUpper

/-- Drop characters satisfying `p` from the left end. -/
def lstripP (p : Char → Bool) (s : Str) : Str := s.dropWhile p

/-- Drop characters satisfying `p` from the right end. -/
def rstripP (p : Char → Bool) (s : Str) : Str := (s.reverse.dropWhile p).reverse

/-- Python `str.strip()` with an explicit character class. -/
def stripP (p : Char → Bool) (s : Str) : Str := rstripP p (lstripP p s)

/-- Python `str.strip()` (whitespace). -/
def pyStrip (s : Str) : Str := stripP isSpaceC s

/-- Python `str.strip(". ")` as used on causes in `_sanitize_summary`. -/
def stripDotSpace (s : Str) : Str := stripP (fun c => c = '.' || c = ' ') s

/-- Python `str.rstrip("-:;,")` as used on truncated descriptions. -/
def rstripPunct (s : Str) : Str := rstripP (fun c => c = '-' || c = ':' || c = ';' || c = ',') s

/-- Boolean prefix test on character lists. -/
def preL : Str → Str → Bool
  | [], _ => true
  | _ :: _, [] => false
  | a :: as, b :: bs => a = b && preL as bs

/-- Boolean substring test: Python `needle in hay`. -/
def subL (n : Str) : Str → Bool
  | [] => preL n []
  | s@(_ :: t) => preL n s || subL n t

/-- Boolean suffix test: Python `str.endswith`. -/
def sufL (n s : Str) : Bool := preL n.reverse s.reverse

/-- Index of the first occurrence of `n` in `s`: Python `str.find` (as `Option`). -/
def findSub (n : Str) : Str → Option Nat
  | [] => if preL n [] then some 0 else none
  | s@(_ :: t) => if preL n s then some 0 else (findSub n t).map (· + 1)

/-- Python `sep.join(items)`. -/
def joinWith (sep : Str) : List Str → Str
  | [] => []
  | [x] => x
  | x :: y :: xs => x ++ sep ++ joinWith sep (y :: xs)

/-- Python `", ".join(items)`, the joiner used throughout `obd.py`. -/
def joinComma (items : List Str) : Str := joinWith ((r", ").data) items

/-- Python `str.split(d)` for a single-character separator (every occurrence splits). -/
def splitChar (d : Char) : Str → List Str
  | [] => [[]]
  | c :: rest =>
    match splitChar d rest with
    | [] => [[]]
    | t :: ts => if c = d then [] :: t :: ts else (c :: t) :: ts

mutual

/-- Python `re.split("[..]+", s)` for a character class: runs of separators
collapse, and leading/trailing runs produce empty fields, exactly as
`re.split`.  (Structured as a mutual recursion — scan mode and in-a-run mode —
so the scanner is structurally recursive.) -/
def splitRuns (p : Char → Bool) : Str → List Str
  | [] => [[]]
  | c :: rest =>
    if p c then [] :: splitRunsSkip p rest
    else
      match splitRuns p rest with
      | [] => [[]]
      | t :: ts => (c :: t) :: ts

/-- Worker of `splitRuns`: inside a separator run, consume the rest of the run
and continue scanning. -/
def splitRunsSkip (p : Char → Bool) : Str → List Str
  | [] => [[]]
  | c :: rest =>
    if p c then splitRunsSkip p rest
    else
      match splitRuns p rest with
      | [] => [[]]
      | t :: ts => (c :: t) :: ts

end

/-- Worker of `collapseWs`: the flag says whether the scanner is inside a
whitespace run whose single replacement has already been emitted. -/
def collapseWsGo : Bool → Str → Str
  | _, [] => []
  | inRun, c :: rest =>
    if isSpaceC c then
      if inRun then collapseWsGo true rest else ' ' :: collapseWsGo true rest
    else c :: collapseWsGo false rest

/-- Python `re.sub(r"\s+", " ", s)`: collapse every whitespace run to one space. -/
def collapseWs (s : Str) : Str := collapseWsGo false s

/-! ## CodeValidator (`app/services/obd.py`, lines 5-9) -/

/-- Letter class `[PBCU]` under `re.IGNORECASE`. -/
def isPBCUci (c : Char) : Bool :=
  c = 'P' || c = 'B' || c = 'C' || c = 'U' || c = 'p' || c = 'b' || c = 'c' || c = 'u'

/-- Python regex `$` (no `re.MULTILINE`): matches at the end of the string or
just before one newline that ends the string. -/
def dollarEnd (rest : Str) : Bool := rest = [] || rest = ['\n']

/-- Compilation of `validate_obd_code` (obd.py): value of
`bool(re.match(r"^[PBCU][0-9]{4}$", code or "", re.IGNORECASE))`.  `re.match`
anchors at the start; after the five pattern characters the `$` accepts the
end of the string or a single terminal newline (Python `$` semantics). -/
def validate_obd_code (code : Str) : Bool :=
  match code with
  | l :: d1 :: d2 :: d3 :: d4 :: rest =>
    isPBCUci l && d1.isDigit && d2.isDigit && d3.isDigit && d4.isDigit && dollarEnd rest
  | _ => false

/-- Modelled from the spec's words (§4.2, §8): a string matching
`^[PBCU][0-9]{4}$` case-insensitively, with the anchors read conventionally as
begin / end of string: exactly one letter of `[PBCU]` (either case) followed by
exactly four digits and nothing else. -/
def specObdFormat (code : Str) : Bool :=
  match code with
  | [l, d1, d2, d3, d4] =>
    isPBCUci l && d1.isDigit && d2.isDigit && d3.isDigit && d4.isDigit
  | _ => false

/-! ## MessageParser code extraction (`app/services/parser.py`) -/

/-- Regex `\w` (ASCII): word characters, deciding `\b` boundaries. -/
def isWordC (c : Char) : Bool := c.isAlphanum || c = '_'

/-- Character class `[0-9O]` of `_OBD_CODE_PATTERN` (parser.py line 4): digits
or a mistyped capital letter O. -/
def isDigO (c : Char) : Bool := c.isDigit || c = 'O'

/-- Attempt `\b([PpBbCcUu])\s*([0-9O]{4})\b` at the current position;
`prevWord` says whether the preceding character is a word character (for the
leading `\b`; the letter itself is a word character, so the boundary holds iff
`prevWord` is false).  `\s` and `[0-9O]` are disjoint classes, so the greedy
`\s*` never needs to backtrack. -/
def obdCodeAt (prevWord : Bool) (s : Str) : Option (Char × Str) :=
  match s with
  | [] => none
  | l :: rest =>
    if prevWord || !isPBCUci l then none
    else
      match rest.dropWhile isSpaceC with
      | a :: b :: c :: d :: rest2 =>
        if isDigO a && isDigO b && isDigO c && isDigO d &&
            (match rest2 with | [] => true | x :: _ => !isWordC x) then
          some (l, [a, b, c, d])
        else none
      | _ => none

/-- Leftmost-match search of `_OBD_CODE_PATTERN` over the text, tracking the
word-character status of the previous character. -/
def obdCodeSearch (prevWord : Bool) : Str → Option (Char × Str)
  | [] => none
  | c :: rest =>
    match obdCodeAt prevWord (c :: rest) with
    | some m => some m
    | none => obdCodeSearch (isWordC c) rest

/-- Compilation of `_normalize_code` (parser.py lines 9-12):
`digits.upper().replace("O", "0")` prefixed by the upper-cased letter. -/
def normalize_code (letter : Char) (digits : Str) : Str :=
  letter.toUpper :: (upperS digits).map (fun c => if c = 'O' then '0' else c)

/-- Code component of `parse_message` (parser.py lines 15-30): strip the text,
search `_OBD_CODE_PATTERN`, normalize the match.  The vehicle-attribute
heuristics of lines 32-57 do not feed any claim and are not modelled. -/
def parse_message_code (text : Str) : Option Str :=
  match obdCodeSearch false (pyStrip text) with
  | some (l, ds) => some (normalize_code l ds)
  | none => none

/-! ## Sanitizer (`app/providers/search.py`, lines 34-203) -/

/-- A candidate summary: the `{"description", "causes", "checks"}` dict shape
passed to and returned by `_sanitize_summary`. -/
structure Summary where
  description : Str
  causes : List Str
  checks : List Str
deriving DecidableEq, Repr

/-- Python list comprehension `[str(x).strip() for x in xs if str(x).strip()]`. -/
def stripNonempty (l : List Str) : List Str :=
  (l.map pyStrip).filter (fun s => !s.isEmpty)

/-- Worker of `_dedupe_str_list`, carrying the `seen` set of lower-cased keys. -/
def dedupeGo (seen : List Str) : List Str → List Str
  | [] => []
  | x :: xs =>
    let s := pyStrip x
    if s.isEmpty then dedupeGo seen xs
    else if lowerS s ∈ seen then dedupeGo seen xs
    else s :: dedupeGo (lowerS s :: seen) xs

/-- Compilation of `_dedupe_str_list` (search.py lines 34-46): strip items,
drop empties, de-duplicate by lower-cased key preserving order. -/
def dedupe_str_list (items : List Str) : List Str := dedupeGo [] items

/-- Attempt `[PBCU][0-9]{4}` with surrounding `\b` at the current position
(pattern `dtc_re` of `_sanitize_summary`, compiled with `re.IGNORECASE`). -/
def dtcMatchAt (prevWord : Bool) (s : Str) : Option Str :=
  match s with
  | l :: d1 :: d2 :: d3 :: d4 :: rest =>
    if !prevWord && isPBCUci l && d1.isDigit && d2.isDigit && d3.isDigit && d4.isDigit &&
        (match rest with | [] => true | x :: _ => !isWordC x) then
      some [l, d1, d2, d3, d4]
    else none
  | _ => none

/-- Leftmost-match worker for `dtc_re.search`. -/
def dtcSearchGo (prevWord : Bool) : Str → Option Str
  | [] => none
  | c :: rest =>
    match dtcMatchAt prevWord (c :: rest) with
    | some m => some m
    | none => dtcSearchGo (isWordC c) rest

/-- First match of `dtc_re` = `\b[PBCU][0-9]{4}\b` (case-insensitive) in `s`. -/
def dtcSearch (s : Str) : Option Str := dtcSearchGo false s

/-- The `bad_tokens` list of `_sanitize_summary` (search.py lines 88-91). -/
def badTokens : List Str :=
  [(r"what is the meaning").data, (r"asked").data, (r"stack overflow").data,
   (r"stackexchange").data, (r"reddit").data, (r"quora").data, (r"http").data,
   (r"www.").data, (r"i bought").data, (r"my car").data, (r"yesterday").data,
   (r"today").data, (r"please").data, (r"thanks").data, (r"anyone").data,
   (r"someone said").data, (r"forum").data, (r"thread").data, (r"help").data]

/-- Cause filter of `_sanitize_summary` (search.py lines 94-111): the body of
the `for c in raw_causes` loop; `c` survives iff no `continue` fires. -/
def causeKeep (code : Str) (c : Str) : Bool :=
  let cl := lowerS c
  !(badTokens.any fun b => subL b cl) &&
  (match dtcSearch c with
   | some m => upperS m = upperS code
   | none => true) &&
  decide (8 ≤ c.length) &&
  !(sufL (r"...").data (stripDotSpace c)) &&
  !(preL (r"this ").data cl || preL (r"specifically ").data cl || preL (r"use ").data cl) &&
  decide (c.length ≤ 120)

/-- The `allowed_verbs` list of `_sanitize_summary` (search.py line 141). -/
def allowedVerbs : List Str :=
  [(r"inspect").data, (r"check").data, (r"test").data, (r"scan").data,
   (r"verify").data, (r"clean").data, (r"replace").data, (r"tighten").data,
   (r"swap").data, (r"measure").data, (r"perform").data]

/-- Python `re.sub(r"^\s*check:\s*", "", ck, flags=re.IGNORECASE)`: remove one
leading `check:` marker together with the whitespace around it; if the anchored
pattern does not match, the string is unchanged. -/
def stripCheckColon (s : Str) : Str :=
  let t := s.dropWhile isSpaceC
  if preL (r"check:").data (lowerS t) then (t.drop 6).dropWhile isSpaceC else s

/-- Check filter of `_sanitize_summary` (search.py lines 143-156), applied to
the already-transformed `s = re.sub(...).strip()`. -/
def checkKeep (code : Str) (s : Str) : Bool :=
  let sl := lowerS s
  !s.isEmpty && decide (s.length ≤ 140) &&
  decide (12 ≤ s.length) &&
  !(badTokens.any fun b => subL b sl) &&
  (allowedVerbs.any fun v => subL v sl) &&
  (match dtcSearch s with
   | some m => upperS m = upperS code
   | none => true)

/-- Keyword-to-action accumulation of `_suggest_checks_from_causes`
(search.py lines 51-65): the checks list before de-duplication. -/
def suggestRaw (causes : List Str) : List Str :=
  let text := lowerS (joinWith [' '] causes)
  let kw := fun (ks : List Str) => ks.any fun k => subL k text
  (if kw [(r"wire").data, (r"wiring").data, (r"harness").data, (r"connector").data,
            (r"communication").data, (r"bus").data, (r"can").data, (r"ecm").data,
            (r"pcm").data, (r"tcm").data] then
      [(r"Inspect wiring harness and connectors").data,
       (r"Ensure connectors are seated and corrosion-free").data,
       (r"Scan for communication errors and module connectivity").data]
     else []) ++
    (if kw [(r"vacuum").data, (r"intake").data] then
      [(r"Check intake and vacuum lines for leaks").data] else []) ++
    (if kw [(r"spark").data, (r"coil").data, (r"ignition").data, (r"misfire").data] then
      [(r"Inspect spark plugs and ignition coils").data] else []) ++
    (if kw [(r"sensor").data, (r"maf").data, (r"o2").data, (r"oxygen").data] then
      [(r"Verify sensor readings with a scan tool").data] else []) ++
    (if kw [(r"fuel").data, (r"injector").data, (r"pressure").data] then
      [(r"Test fuel pressure and injector operation").data] else [])

/-- Compilation of `_suggest_checks_from_causes` (search.py lines 49-69):
build keyword-matched checks, de-duplicate, default when empty, cap at 6. -/
def suggest_checks_from_causes (causes : List Str) : List Str :=
  let checks := dedupe_str_list (suggestRaw causes)
  let checks :=
    if checks.isEmpty then [(r"Perform visual inspection and scan for related DTCs").data]
    else checks
  checks.take 6

/-- The `bad_desc_terms` list (search.py line 77). -/
def badDescTerms : List Str :=
  [(r"what is the meaning").data, (r"stack overflow").data, (r"stackexchange").data,
   (r"reddit").data, (r"quora").data]

/-- Description truncation loop (search.py lines 80-84): the first term of
`bad_desc_terms` (in list order, not leftmost occurrence) that occurs in the
lower-cased description truncates it at that occurrence. -/
def truncBadLoop : List Str → Str → Str
  | [], desc => desc
  | t :: ts, desc =>
    match findSub t (lowerS desc) with
    | some idx => rstripPunct (pyStrip (desc.take idx))
    | none => truncBadLoop ts desc

/-- Description cleaning (search.py lines 73-84): strip, collapse whitespace,
truncate at a Q&A-noise term when one occurs. -/
def descClean (desc : Str) : Str :=
  let d := collapseWs (pyStrip desc)
  if badDescTerms.any (fun t => subL t (lowerS d)) then truncBadLoop badDescTerms d else d

/-- Python `re.match(r"^P0300$", c_up)` (search.py line 117), with Python `$`. -/
def reMatchP0300 (s : Str) : Bool :=
  match s with
  | 'P' :: '0' :: '3' :: '0' :: '0' :: rest => dollarEnd rest
  | _ => false

/-- Python `re.match(r"^P03\d\d$", c_up)` (search.py lines 118 and 164). -/
def reMatchP03 (s : Str) : Bool :=
  match s with
  | 'P' :: '0' :: '3' :: a :: b :: rest => a.isDigit && b.isDigit && dollarEnd rest
  | _ => false

/-- Python `re.match(r"(?i)^obd-ii code\b", desc)` (search.py line 114). -/
def reMatchObdIi (desc : Str) : Bool :=
  preL (r"obd-ii code").data (lowerS desc) &&
  (match desc.drop 11 with | [] => true | x :: _ => !isWordC x)

/-- Python `s[-2:]`. -/
def lastTwo (s : Str) : Str := s.drop (s.length - 2)

/-- Python `str.isdigit()` (ASCII): non-empty and all digits. -/
def pyIsDigit (s : Str) : Bool := !s.isEmpty && s.all Char.isDigit

/-- Numeric value of a digit string, for Python `int(cyl)`. -/
def digitsVal (s : Str) : Nat := s.foldl (fun n c => 10 * n + (c.toNat - '0'.toNat)) 0

/-- Rendering of a `Nat` in an f-string. -/
def natStr (n : Nat) : Str := (Nat.repr n).data

/-- Description backfill (search.py lines 113-136): applied when the cleaned
description is empty or starts with the generic `obd-ii code` marker. -/
def descBackfill (code : Str) (causes : List Str) (desc : Str) : Str :=
  if desc.isEmpty || reMatchObdIi desc then
    let cUp := pyStrip (upperS code)
    if reMatchP0300 cUp then (r"Random/multiple cylinder misfire detected").data
    else if reMatchP03 cUp then
      let cyl := lastTwo cUp
      if pyIsDigit cyl && !(cyl = ['0', '0']) then
        (r"Cylinder ").data ++ natStr (digitsVal cyl % 100) ++ (r" misfire detected").data
      else (r"Engine misfire detected").data
    else if cUp = (r"P0420").data then
      (r"Catalyst system efficiency below threshold (Bank 1)").data
    else if cUp = (r"P0720").data then
      (r"Output speed sensor circuit malfunction").data
    else if cUp = (r"P0600").data then
      (r"Serial communication link malfunction").data
    else
      let joined := lowerS (joinWith [' '] causes)
      if [(r"communication").data, (r"can").data, (r"bus").data, (r"link").data,
          (r"harness").data, (r"connector").data, (r"ecm").data, (r"pcm").data,
          (r"tcm").data].any (fun k => subL k joined) then
        (r"Malfunction in the communication link between ECM and related control modules (wiring/connectors).").data
      else desc
  else desc

/-- Misfire canonical causes (search.py lines 168-175); `cylNum` is Python's
`cyl_num`, whose `None` and `0` are both falsy in the conditional f-strings. -/
def p03CauseList (cylNum : Option Nat) : List Str :=
  match cylNum with
  | some n =>
    if n ≠ 0 then
      [(r"Ignition coil failure (cylinder ").data ++ natStr n ++ [')'],
       (r"Spark plug fouled/worn (cylinder ").data ++ natStr n ++ [')'],
       (r"Fuel injector issue (cylinder ").data ++ natStr n ++ [')'],
       (r"Vacuum leak near intake manifold").data,
       (r"Low compression (cylinder ").data ++ natStr n ++ [')'],
       (r"Wiring/connector issue at coil/injector (cylinder ").data ++ natStr n ++ [')']]
    else p03CauseListGeneric
  | none => p03CauseListGeneric
where
  p03CauseListGeneric : List Str :=
    [(r"Ignition coil failure").data,
     (r"Spark plug fouled/worn").data,
     (r"Fuel injector issue").data,
     (r"Vacuum leak near intake manifold").data,
     (r"Low compression").data,
     (r"Wiring/connector issue at coil/injector").data]

/-- Misfire canonical checks (search.py lines 178-185). -/
def p03CheckList (cylNum : Option Nat) : List Str :=
  match cylNum with
  | some n =>
    if n ≠ 0 then
      [(r"Inspect/replace spark plug (cylinder ").data ++ natStr n ++ [')'],
       (r"Swap ignition coil with another cylinder and re-scan (cylinder ").data ++ natStr n ++ [')'],
       (r"Inspect coil/injector wiring and connectors (cylinder ").data ++ natStr n ++ [')'],
       (r"Perform compression test (cylinder ").data ++ natStr n ++ [')'],
       (r"Injector balance/leak test (cylinder ").data ++ natStr n ++ [')'],
       (r"Check for vacuum leaks around intake hoses/gaskets").data]
    else p03CheckListGeneric
  | none => p03CheckListGeneric
where
  p03CheckListGeneric : List Str :=
    [(r"Inspect/replace spark plug").data,
     (r"Swap ignition coil with another cylinder and re-scan").data,
     (r"Inspect coil/injector wiring and connectors").data,
     (r"Perform compression test").data,
     (r"Injector balance/leak test").data,
     (r"Check for vacuum leaks around intake hoses/gaskets").data]

/-- P0705 canonical causes (search.py lines 190-195). -/
def p0705Causes : List Str :=
  [(r"Transmission range sensor (TRS) faulty or misaligned").data,
   (r"Damaged or corroded TRS connector/wiring").data,
   (r"Selector linkage out of adjustment").data,
   (r"TCM input fault (less common)").data]

/-- P0705 canonical checks (search.py lines 197-202). -/
def p0705Checks : List Str :=
  [(r"Verify TRS alignment and selector linkage adjustment").data,
   (r"Inspect TRS wiring and connector for damage/corrosion").data,
   (r"Read PRNDL status with scan tool and compare to lever position").data,
   (r"Check continuity/voltage at TRS according to service manual").data]

/-- Sanitized causes before canonical backfill (search.py lines 86-112). -/
def causesPre (code : Str) (rawCauses : List Str) : List Str :=
  (dedupe_str_list ((stripNonempty rawCauses).filter (causeKeep code))).take 6

/-- Sanitized checks before canonical backfill (search.py lines 139-160):
filter, synthesize from causes when fewer than 2 survive, de-duplicate, cap. -/
def checksPre (code : Str) (causes : List Str) (rawChecks : List Str) : List Str :=
  let kept := ((stripNonempty rawChecks).map (fun ck => pyStrip (stripCheckColon ck))).filter
    (checkKeep code)
  let kept := if kept.isEmpty || kept.length < 2 then suggest_checks_from_causes causes else kept
  (dedupe_str_list kept).take 6

/-- Python `cyl_num = int(cyl) % 100 if cyl.isdigit() else None` applied to
`cyl = c_up[-2:]` (search.py lines 165-166); `None` and `0` are both falsy in
the conditional f-strings of the canonical lists. -/
def cylNumOf (cUp : Str) : Option Nat :=
  let cyl := lastTwo cUp
  if pyIsDigit cyl then some (digitsVal cyl % 100) else none

/-- Final causes of `_sanitize_summary`: the sanitized causes of lines 86-112
followed by the canonical backfills of lines 163-176 (misfire family) and
188-195 (P0705), each replacing the list when fewer than 3 causes survived. -/
def causesFinal (code : Str) (rawCauses : List Str) : List Str :=
  let causes0 := causesPre code rawCauses
  let cUp := pyStrip (upperS code)
  let c1 :=
    if reMatchP03 cUp then
      if causes0.length < 3 then (dedupe_str_list (p03CauseList (cylNumOf cUp))).take 6
      else causes0
    else causes0
  if cUp = (r"P0705").data then
    if c1.length < 3 then (dedupe_str_list p0705Causes).take 6 else c1
  else c1

/-- Final checks of `_sanitize_summary`: the sanitized checks of lines 139-160
(seeded from the sanitized causes when fewer than 2 survive) followed by the
canonical backfills of lines 177-186 and 196-202. -/
def checksFinal (code : Str) (causes0 : List Str) (rawChecks : List Str) : List Str :=
  let checks1 := checksPre code causes0 rawChecks
  let cUp := pyStrip (upperS code)
  let k1 :=
    if reMatchP03 cUp then
      if checks1.length < 3 then (dedupe_str_list (p03CheckList (cylNumOf cUp))).take 6
      else checks1
    else checks1
  if cUp = (r"P0705").data then
    if k1.length < 3 then (dedupe_str_list p0705Checks).take 6 else k1
  else k1

/-- Compilation of `_sanitize_summary` (search.py lines 72-203).  The causes
and checks pipelines are independent in the Python function (the checks only
read the already-sanitized causes), so they are assembled here from the two
top-level functions above. -/
def sanitize_summary (code : Str) (s : Summary) : Summary :=
  let causes0 := causesPre code s.causes
  ⟨descBackfill code causes0 (descClean s.description),
   causesFinal code s.causes,
   checksFinal code causes0 s.checks⟩

/-- Worker for the merge-dedupe loops of `get_obd_info` (obd.py lines 156-162
and 167-173): de-duplicate by lower-cased form, no stripping, preserving
order. -/
def dedupeLowerGo (seen : List Str) : List Str → List Str
  | [] => []
  | x :: xs =>
    if lowerS x ∈ seen then dedupeLowerGo seen xs
    else x :: dedupeLowerGo (lowerS x :: seen) xs

/-- Merge-dedupe of `get_obd_info` (case-insensitive, order-preserving). -/
def dedupeLower (l : List Str) : List Str := dedupeLowerGo [] l

/-! ## Environment, datastore and network model -/

/-- Outcome of an awaited datastore or network call: a value, or a raised
exception as the caller experiences it. -/
inductive Res (α : Type) where
  | ok (a : α)
  | exn
deriving DecidableEq, Repr

/-- Environment variables as an association list; `getenvD` is `os.getenv`
with an explicit default. -/
abbrev Env := List (Str × Str)

/-- Python `os.getenv(k, d)`. -/
def getenvD (env : Env) (k d : Str) : Str :=
  match env.find? (fun p => p.1 = k) with
  | some p => p.2
  | none => d

/-- Python `....strip().lower() == "true"`, the flag test used everywhere. -/
def envTrue (s : Str) : Bool := lowerS (pyStrip s) = (r"true").data

/-- A vehicle dict as produced by `parse_message`: four optional fields.
`none` at the outer level models both `vehicle=None` and the empty dict `{}`
(both falsy, and `.get` of every key yields a falsy value on `{}`). -/
structure Veh where
  make : Option Str
  model : Option Str
  year : Option Str
  engine : Option Str
deriving DecidableEq, Repr

/-- Normalized vehicle key. -/
structure VNorm where
  make : Str
  model : Str
  year : Str
  engine : Str
deriving DecidableEq, Repr

/-- Vehicle-key normalization `(vehicle.get(k) or "").strip().lower()` as
performed identically in `get_obd_info` (obd.py lines 17-22) and
`get_external_obd` (search.py lines 435-440). -/
def vnormOf (vehicle : Option Veh) : VNorm :=
  match vehicle with
  | none => ⟨[], [], [], []⟩
  | some v =>
    ⟨lowerS (pyStrip (v.make.getD [])), lowerS (pyStrip (v.model.getD [])),
     lowerS (pyStrip (v.year.getD [])), lowerS (pyStrip (v.engine.getD []))⟩

/-- An `obd_summaries` document (fields the code reads). -/
structure PvDoc where
  description : Str
  causes : List Str
  checks : List Str
deriving DecidableEq, Repr

/-- An `obd_codes` document.  The `code` field is optional because
`doc.get("code", code.upper())` applies a default only when the key is absent;
the other reads use `doc.get(k) or ...`, collapsing missing and falsy. -/
structure CodeDoc where
  code : Option Str
  description : Str
  symptoms : Str
  common_causes : Str
  generic_fixes : Str
deriving DecidableEq, Repr

/-- The `$set` payload of the `obd_codes` sanitize-persist write. -/
structure CodesSet where
  description : Str
  common_causes : Str
  generic_fixes : Str
deriving DecidableEq, Repr

/-- An `external_obd_cache` document (`fetched_at` is not modelled). -/
structure CacheDoc where
  description : Str
  causes : List Str
  checks : List Str
  sources : List Str
deriving DecidableEq, Repr

/-- A `vehicle_overrides` document as declared by the deployment's datastore
and the repository's test fixtures.  No code under `app/` ever reads this
collection; it is part of the datastore model so that claims about overrides
can be stated. -/
structure OverrideDoc where
  known_issues : List Str
  priority_checks : List Str
deriving DecidableEq, Repr

/-- One web-search result. -/
structure SearchResult where
  url : Str
  title : Str
  snippet : Str
deriving DecidableEq, Repr

/-- The datastore as a family of oracles, one per collection access the code
performs.  Write oracles return `Res Unit` because the Python call sites
swallow write failures; their payloads are the `$set` fields (ancillary fields
such as `sources`/timestamps on the enrichment writes are not modelled). -/
structure Db where
  obd_summaries_find : Str → VNorm → Res (Option PvDoc)
  obd_summaries_update : Str → VNorm → PvDoc → Res Unit
  obd_codes_find : Str → Res (Option CodeDoc)
  obd_codes_update : Str → CodesSet → Res Unit
  external_cache_find : Str → VNorm → Res (Option CacheDoc)
  external_cache_update : Str → VNorm → CacheDoc → Res Unit
  vehicle_overrides_find : Str → VNorm → Res (Option OverrideDoc)

/-- The two outbound collaborators: `_web_search_for_code` and
`_summarize_with_gemini`, abstracted at their call boundary.  `gemini` returns
`ok none` for an in-function failure (the Python function catches its own
generate/parse errors and returns `None`) and `exn` for a raised error. -/
structure Net where
  web_search : Str → Option Veh → Res (List SearchResult)
  gemini : Str → List SearchResult → Option Veh → Res (Option Summary)

/-- Observable interactions of one resolution run. -/
inductive Ev where
  | pvFind (code : Str) (v : VNorm)
  | pvWrite (code : Str) (v : VNorm) (doc : PvDoc)
  | codesFind (code : Str)
  | codesWrite (code : Str) (doc : CodesSet)
  | cacheFind (code : Str) (v : VNorm)
  | cacheWrite (code : Str) (v : VNorm) (doc : CacheDoc)
  | searchCall (code : Str)
  | aiCall (code : Str)
deriving DecidableEq, Repr

/-- Discriminator: is this event a write to `external_obd_cache`? -/
def Ev.isCacheWrite : Ev → Bool
  | Ev.cacheWrite _ _ _ => true
  | _ => false

/-- Discriminator: is this event a write to `obd_summaries`? -/
def Ev.isPvWrite : Ev → Bool
  | Ev.pvWrite _ _ _ => true
  | _ => false

/-- Discriminator: is this event a read of `obd_summaries`? -/
def Ev.isPvFind : Ev → Bool
  | Ev.pvFind _ _ => true
  | _ => false

/-- Discriminator: is this event a search-provider call? -/
def Ev.isSearchCall : Ev → Bool
  | Ev.searchCall _ => true
  | _ => false

/-- Discriminator: is this event an AI-provider call? -/
def Ev.isAiCall : Ev → Bool
  | Ev.aiCall _ => true
  | _ => false

/-! ## ExternalEnrichmentProvider (`app/providers/search.py`, lines 425-585) -/

/-- Return value of `get_external_obd`: the cache-hit path carries the stored
`sources` and `from_ai=True`; the computed path carries the sanitized summary
and whether it came from the AI. -/
structure ExtOut where
  description : Str
  causes : List Str
  checks : List Str
  sources : Option (List Str)
  from_ai : Bool
deriving DecidableEq, Repr

/-- The `bad_subs` list of the heuristic fallback (search.py lines 493-496). -/
def heurBadSubs : List Str :=
  [(r"what is the meaning").data, (r"asked").data, (r"stack overflow").data,
   (r"stackexchange").data, (r"reddit").data, (r"quora").data,
   (r"how do i fix").data, (r"may ").data, (r"nov ").data, (r"dec ").data,
   (r"jan ").data, (r"feb ").data, (r"mar ").data, (r"apr ").data]

mutual

/-- Python `re.split(r",|;|\n|•|\-|—|:\s*", text)` (search.py line 491): each
single delimiter splits once; a colon also consumes the following whitespace
(its greedy `\s*`, which runs through newlines before they can act as
delimiters).  Structured as a mutual recursion so the scanner is structurally
recursive. -/
def splitHeur : Str → List Str
  | [] => [[]]
  | c :: rest =>
    if c = ',' || c = ';' || c = '\n' || c = '•' || c = '-' || c = '—' then
      [] :: splitHeur rest
    else if c = ':' then
      [] :: splitHeurSkipWs rest
    else
      match splitHeur rest with
      | [] => [[]]
      | t :: ts => (c :: t) :: ts

/-- Worker of `splitHeur`: inside the `\s*` of a matched colon, consume the
whitespace, then continue scanning (the next character may itself open a new
delimiter match). -/
def splitHeurSkipWs : Str → List Str
  | [] => [[]]
  | c :: rest =>
    if isSpaceC c then splitHeurSkipWs rest
    else if c = ',' || c = ';' || c = '•' || c = '-' || c = '—' then
      [] :: splitHeur rest
    else if c = ':' then
      [] :: splitHeurSkipWs rest
    else
      match splitHeur rest with
      | [] => [[]]
      | t :: ts => (c :: t) :: ts

end

/-- Token filter of the heuristic fallback (search.py lines 497-509): drop
noisy or overlong tokens, de-duplicate by lower-cased form preserving order. -/
def heurClean (seen : List Str) : List Str → List Str
  | [] => []
  | t :: ts =>
    let tl := lowerS t
    if heurBadSubs.any (fun b => subL b tl) then heurClean seen ts
    else if decide (120 < t.length) then heurClean seen ts
    else if tl ∈ seen then heurClean seen ts
    else t :: heurClean (tl :: seen) ts

/-- Heuristic snippet extraction (search.py lines 482-512), used when the AI
path is disabled or failed. -/
def heuristicSummary (code : Str) (results : List SearchResult) : Summary :=
  let text := joinWith ['\n'] (results.map (fun r => r.snippet))
  let tokens := stripNonempty (splitHeur text)
  let cleaned := heurClean [] tokens
  let causes :=
    if cleaned.isEmpty then
      [(r"Communication bus fault").data, (r"Harness/connector issue").data,
       (r"Control module fault").data]
    else cleaned.take 5
  ⟨(r"OBD-II code ").data ++ code, causes,
   (causes.map (fun c => (r"Check: ").data ++ c)).take 5⟩

/-- Summarize/sanitize/persist tail of `get_external_obd` (search.py lines
469-585) once the search has produced `results`: `osum` is the AI summary when
the AI path ran and succeeded (Python `summary`), so `fromAi := osum.isSome`
is Python's `summary_from_ai`.  When `osum` is `none` the heuristic extraction
supplies the summary.  After sanitization, the cache write (lines 519-541) and
the optional per-vehicle write (lines 555-583) are attempted only under
`fromAi`; their outcomes are swallowed by `try/except`, so they appear as
events. -/
def extFinish (env : Env) (code : Str) (v : VNorm) (results : List SearchResult)
    (osum : Option Summary) (evs : List Ev) : Res (Option ExtOut) × List Ev :=
  let fromAi := osum.isSome
  let summary := match osum with
    | some s => s
    | none => heuristicSummary code results
  let clean := sanitize_summary code summary
  let evs1 := evs ++
    (if fromAi then
      [Ev.cacheWrite (upperS code) v ⟨clean.description, clean.causes, clean.checks,
        results.map (fun r => r.url)⟩]
     else [])
  let evs2 := evs1 ++
    (if fromAi &&
        envTrue (getenvD env (r"EXTERNAL_SAVE_PER_VEHICLE").data (r"false").data) then
      [Ev.pvWrite (upperS code) v ⟨clean.description, clean.causes, clean.checks⟩]
     else [])
  (Res.ok (some ⟨clean.description, clean.causes, clean.checks, none, fromAi⟩), evs2)

/-- Compilation of `get_external_obd` (search.py lines 425-585), returning the
Python return value (or raised exception) together with the event trace. -/
def get_external_obd (env : Env) (db : Db) (net : Net) (code : Str) (vehicle : Option Veh) :
    Res (Option ExtOut) × List Ev :=
  let internet := envTrue (getenvD env (r"INTERNET_FALLBACK_ENABLED").data (r"False").data)
  if !internet then (Res.ok none, [])
  else
    let v := vnormOf vehicle
    let cU := upperS code
    match db.external_cache_find cU v with
    | Res.exn => (Res.exn, [Ev.cacheFind cU v])
    | Res.ok (some cached) =>
      (Res.ok (some ⟨cached.description, cached.causes, cached.checks, some cached.sources, true⟩),
       [Ev.cacheFind cU v])
    | Res.ok none =>
      match net.web_search code vehicle with
      | Res.exn => (Res.exn, [Ev.cacheFind cU v, Ev.searchCall code])
      | Res.ok [] => (Res.ok none, [Ev.cacheFind cU v, Ev.searchCall code])
      | Res.ok (rhd :: rtl) =>
        let aiGemini := envTrue (getenvD env (r"AI_ENRICH_ENABLED").data (r"False").data) &&
          lowerS (pyStrip (getenvD env (r"AI_PROVIDER").data [])) = (r"gemini").data
        if aiGemini then
          match net.gemini code (rhd :: rtl) vehicle with
          | Res.exn =>
            (Res.exn, [Ev.cacheFind cU v, Ev.searchCall code, Ev.aiCall code])
          | Res.ok osum =>
            extFinish env code v (rhd :: rtl) osum
              [Ev.cacheFind cU v, Ev.searchCall code, Ev.aiCall code]
        else
          extFinish env code v (rhd :: rtl) none [Ev.cacheFind cU v, Ev.searchCall code]

/-! ## KnowledgeResolver (`app/services/obd.py`, lines 12-209) -/

/-- The record `get_obd_info` returns to its caller. -/
structure Rec where
  code : Str
  description : Str
  symptoms : Str
  common_causes : Str
  generic_fixes : Str
deriving DecidableEq, Repr

/-- The terminal generic fallback record (obd.py lines 203-209). -/
def genericRecord (code : Str) : Rec :=
  ⟨upperS code, (r"Generic OBD-II DTC.").data, [],
   (r"Vacuum leak, faulty sensor, wiring issue").data,
   (r"Inspect vacuum lines, check connectors, verify sensor readings").data⟩

/-- Per-vehicle summary tier of `get_obd_info` (obd.py lines 13-69): consulted
only when the vehicle dict is truthy and saving per-vehicle summaries is
enabled; a raised read is caught by the enclosing `try` and falls through
(`none`).  The sanitizer is total in the model, so the inner `except` arm at
line 55 is unreachable. -/
def tier0 (env : Env) (db : Db) (code : Str) (vehicle : Option Veh) : Option Rec × List Ev :=
  let savePv := envTrue (getenvD env (r"EXTERNAL_SAVE_PER_VEHICLE").data (r"true").data)
  match vehicle with
  | none => (none, [])
  | some v =>
    if savePv then
      let vn := vnormOf (some v)
      let cU := upperS code
      match db.obd_summaries_find cU vn with
      | Res.exn => (none, [Ev.pvFind cU vn])
      | Res.ok none => (none, [Ev.pvFind cU vn])
      | Res.ok (some pv) =>
        let cleaned := sanitize_summary code ⟨pv.description, pv.causes, pv.checks⟩
        let changed := !(decide (cleaned.description = pv.description) &&
                         decide (cleaned.causes = pv.causes) &&
                         decide (cleaned.checks = pv.checks))
        let evs := [Ev.pvFind cU vn] ++
          (if changed then [Ev.pvWrite cU vn ⟨cleaned.description, cleaned.causes, cleaned.checks⟩]
           else [])
        (some ⟨cU, cleaned.description, [], joinComma cleaned.causes, joinComma cleaned.checks⟩,
         evs)
    else (none, [])

/-- Primary-record branch of `get_obd_info` (obd.py lines 72-177): sanitize on
read, persist a correction, then conditionally enrich and merge.  Every
effectful step inside this branch is wrapped in `try/except` in the Python, so
the branch always produces a record. -/
def docBranch (env : Env) (db : Db) (net : Net) (code : Str) (vehicle : Option Veh)
    (doc : CodeDoc) : Rec × List Ev :=
  let causesList := stripNonempty (splitChar ',' doc.common_causes)
  let checksList := stripNonempty (splitRuns (fun c => c = ',' || c = '\n' || c = ';') doc.generic_fixes)
  let cleaned := sanitize_summary code ⟨doc.description, causesList, checksList⟩
  let changed := !(decide (cleaned.description = doc.description) &&
                   decide (joinComma cleaned.causes = doc.common_causes) &&
                   decide (joinComma cleaned.checks = doc.generic_fixes))
  let evs0 :=
    if changed then
      [Ev.codesWrite (upperS code)
        ⟨cleaned.description, joinComma cleaned.causes, joinComma cleaned.checks⟩]
    else []
  let base : Rec := ⟨doc.code.getD (upperS code), cleaned.description, doc.symptoms,
                     joinComma cleaned.causes, joinComma cleaned.checks⟩
  let descLow := lowerS (pyStrip base.description)
  let hasCauses := !(pyStrip base.common_causes).isEmpty
  let isGeneric := descLow.isEmpty || subL (r"generic obd-ii dtc").data descLow
  let always := envTrue (getenvD env (r"EXTERNAL_ENRICH_ALWAYS").data (r"false").data)
  if isGeneric || !hasCauses || always then
    match get_external_obd env db net (upperS code) vehicle with
    | (Res.exn, evs) => (base, evs0 ++ evs)
    | (Res.ok none, evs) => (base, evs0 ++ evs)
    | (Res.ok (some ext), evs) =>
      let extDesc := pyStrip ext.description
      let extCauses := stripNonempty ext.causes
      let extChecks := stripNonempty ext.checks
      let base1 := if !extDesc.isEmpty && isGeneric then { base with description := extDesc } else base
      let base2 :=
        if !extCauses.isEmpty || !extChecks.isEmpty then
          if always then
            let b3 := if !extCauses.isEmpty then { base1 with common_causes := joinComma extCauses }
                      else base1
            if !extChecks.isEmpty then { b3 with generic_fixes := joinComma extChecks } else b3
          else
            let b3 :=
              if !extCauses.isEmpty then
                { base1 with common_causes := joinComma (dedupeLower
                    (stripNonempty (splitChar ',' base1.common_causes) ++ extCauses)) }
              else base1
            if !extChecks.isEmpty then
              { b3 with generic_fixes := joinComma (dedupeLower
                  (stripNonempty (splitRuns (fun c => c = ',' || c = '\n' || c = ';') b3.generic_fixes)
                   ++ extChecks)) }
            else b3
        else base1
      (base2, evs0 ++ evs)
  else (base, evs0)

/-- Code-not-found branch of `get_obd_info` (obd.py lines 178-209): attempt
external enrichment (all failures caught), else the generic fallback. -/
def notFoundBranch (env : Env) (db : Db) (net : Net) (code : Str) (vehicle : Option Veh) :
    Rec × List Ev :=
  match get_external_obd env db net (upperS code) vehicle with
  | (Res.exn, evs) => (genericRecord code, evs)
  | (Res.ok none, evs) => (genericRecord code, evs)
  | (Res.ok (some ext), evs) =>
    let extDesc := pyStrip ext.description
    let extCauses := stripNonempty ext.causes
    let extChecks := stripNonempty ext.checks
    (⟨upperS code,
      (if extDesc.isEmpty then (r"OBD-II code ").data ++ upperS code else extDesc),
      [],
      (if extCauses.isEmpty then [] else joinComma extCauses),
      (if extChecks.isEmpty then [] else joinComma extChecks)⟩, evs)

/-- Compilation of `get_obd_info` (obd.py lines 12-209).  The per-vehicle tier
and every step after the primary lookup are exception-guarded in the Python;
the `obd_codes` `find_one` at line 71 is not, so its failure is the one way
the function raises. -/
def get_obd_info (env : Env) (db : Db) (net : Net) (code : Str) (vehicle : Option Veh) :
    Res Rec × List Ev :=
  let t0 := tier0 env db code vehicle
  match t0.1 with
  | some r => (Res.ok r, t0.2)
  | none =>
    let cU := upperS code
    match db.obd_codes_find cU with
    | Res.exn => (Res.exn, t0.2 ++ [Ev.codesFind cU])
    | Res.ok none =>
      let nf := notFoundBranch env db net code vehicle
      (Res.ok nf.1, t0.2 ++ [Ev.codesFind cU] ++ nf.2)
    | Res.ok (some doc) =>
      let dbr := docBranch env db net code vehicle doc
      (Res.ok dbr.1, t0.2 ++ [Ev.codesFind cU] ++ dbr.2)

/-! ## Proof-support definitions -/

/-- The code-independent conjuncts of `causeKeep`: once the cause's first DTC
match is known to be absent, `causeKeep code c = causeKeepAux c` for any
code. -/
def causeKeepAux (c : Str) : Bool :=
  let cl := lowerS c
  !(badTokens.any fun b => subL b cl) &&
  decide (8 ≤ c.length) &&
  !(sufL (r"...").data (stripDotSpace c)) &&
  !(preL (r"this ").data cl || preL (r"specifically ").data cl || preL (r"use ").data cl) &&
  decide (c.length ≤ 120)

/-- Does the string contain four consecutive digit characters?  `dtc_re` needs
such a run, so its search fails on strings without one. -/
def hasRun4 : Str → Bool
  | a :: b :: c :: d :: rest =>
    (a.isDigit && b.isDigit && c.isDigit && d.isDigit) || hasRun4 (b :: c :: d :: rest)
  | _ => false

/-- Side conditions on the literal part `lit` of a canonical cause template
`lit ++ digits ++ ")"` under which the whole instantiated string passes the
cause filter for every code: sane length, no digits, a head that no strip
removes, no noise token and no filler prefix inside `lit` itself. -/
def litOk (lit : Str) : Bool :=
  decide (8 ≤ lit.length) && decide (lit.length ≤ 117) &&
  lit.all (fun c => !c.isDigit) &&
  (match lit with | [] => false | c :: _ => !isSpaceC c && !(c = '.')) &&
  (badTokens.all fun b => !subL b (lowerS lit)) &&
  !(preL (r"this ").data (lowerS lit) || preL (r"specifically ").data (lowerS lit) ||
    preL (r"use ").data (lowerS lit))

/-! ## Concrete scenarios used by counterexamples and witnesses -/

/-- A datastore whose every oracle answers "no document, no failure". -/
def dbEmpty : Db :=
  ⟨fun _ _ => Res.ok none, fun _ _ _ => Res.ok (), fun _ => Res.ok none,
   fun _ _ => Res.ok (), fun _ _ => Res.ok none, fun _ _ _ => Res.ok (),
   fun _ _ => Res.ok none⟩

/-- A network whose search finds nothing and whose AI is unavailable. -/
def netEmpty : Net := ⟨fun _ _ => Res.ok [], fun _ _ _ => Res.ok none⟩

/-- Environment enabling only the internet fallback. -/
def envNetOn : Env := [((r"INTERNET_FALLBACK_ENABLED").data, (r"true").data)]

/-- Environment enabling internet fallback, Gemini enrichment, and per-vehicle
summary saving. -/
def envAiOn : Env :=
  [((r"INTERNET_FALLBACK_ENABLED").data, (r"true").data),
   ((r"AI_ENRICH_ENABLED").data, (r"true").data),
   ((r"AI_PROVIDER").data, (r"gemini").data),
   ((r"EXTERNAL_SAVE_PER_VEHICLE").data, (r"true").data)]

/-- A stored external-cache entry for `(P0401, {})`. -/
def cacheP0401 : CacheDoc :=
  ⟨(r"EGR flow insufficient detected").data,
   [(r"Clogged EGR passages restricting flow").data],
   [(r"Inspect EGR valve operation with scan tool").data],
   [(r"https://www.obd-codes.com/p0401").data]⟩

/-- Datastore holding only that cache entry. -/
def dbCacheP0401 : Db :=
  { dbEmpty with
    external_cache_find := fun c v =>
      if c = (r"P0401").data ∧ v = ⟨[], [], [], []⟩ then Res.ok (some cacheP0401)
      else Res.ok none }

/-- A promoted per-vehicle summary for `(P0301, all-empty vehicle)`. -/
def pvP0301 : PvDoc := ⟨(r"Cylinder 1 misfire detected").data, [], []⟩

/-- Datastore holding only that per-vehicle summary. -/
def dbPvP0301 : Db :=
  { dbEmpty with
    obd_summaries_find := fun c v =>
      if c = (r"P0301").data ∧ v = ⟨[], [], [], []⟩ then Res.ok (some pvP0301)
      else Res.ok none }

/-- Datastore whose primary `obd_codes` read raises. -/
def dbPrimaryRaises : Db := { dbEmpty with obd_codes_find := fun _ => Res.exn }

/-- The spec's C3 scenario: a primary `P0705` record with causes
`["wiring damage"]`. -/
def docP0705 : CodeDoc :=
  ⟨some (r"P0705").data,
   (r"Transmission range sensor circuit malfunction").data,
   (r"No start in park").data,
   (r"wiring damage").data, []⟩

/-- The spec's C3 scenario: a `VehicleOverride` for
`(P0705, {make: toyota, model: hilux})`. -/
def ovP0705 : OverrideDoc := ⟨[(r"range sensor faulty").data], []⟩

/-- Datastore holding the C3 primary record and override. -/
def dbOverrideP0705 : Db :=
  { dbEmpty with
    obd_codes_find := fun c =>
      if c = (r"P0705").data then Res.ok (some docP0705) else Res.ok none,
    vehicle_overrides_find := fun c v =>
      if c = (r"P0705").data ∧ v = ⟨(r"toyota").data, (r"hilux").data, [], []⟩ then
        Res.ok (some ovP0705)
      else Res.ok none }

/-- The C3 vehicle context. -/
def vehHilux : Veh := ⟨some (r"Toyota").data, some (r"Hilux").data, none, none⟩

/-- What resolution actually returns in the C3 scenario: the sanitized primary
record, its weak causes list replaced by the canonical P0705 backfill and its
empty checks synthesized from the causes; no `source` or `confidence` field
exists on the record type. -/
def recP0705 : Rec :=
  ⟨(r"P0705").data,
   (r"Transmission range sensor circuit malfunction").data,
   (r"No start in park").data,
   (r"Transmission range sensor (TRS) faulty or misaligned, Damaged or corroded TRS connector/wiring, Selector linkage out of adjustment, TCM input fault (less common)").data,
   (r"Inspect wiring harness and connectors, Ensure connectors are seated and corrosion-free, Scan for communication errors and module connectivity").data⟩

/-- A search result and an AI summary used to witness the persistence path. -/
def resultW : SearchResult :=
  ⟨(r"https://www.obd-codes.com/p0401").data, (r"P0401 EGR flow").data,
   (r"EGR flow insufficient").data⟩

/-- The witness AI summary. -/
def sumW : Summary :=
  ⟨(r"EGR flow insufficient detected").data,
   [(r"Clogged EGR passages restricting flow").data],
   [(r"Inspect EGR valve operation with scan tool").data]⟩

/-- A network whose search finds `resultW` and whose AI returns `sumW`. -/
def netAiW : Net := ⟨fun _ _ => Res.ok [resultW], fun _ _ _ => Res.ok (some sumW)⟩

/-! ## Generic lemmas about the string primitives -/

/-- dropWhile over an all-satisfying prefix continues into the suffix. -/
theorem dropWhileAppendAll {p : Char → Bool} {xs : Str} (h : xs.all p = true) (ys : Str) :
    (xs ++ ys).dropWhile p = ys.dropWhile p := by
  induction xs with
  | nil => rfl
  | cons a t ih =>
    simp only [List.all_cons, Bool.and_eq_true] at h
    simp [List.dropWhile_cons, h.1, ih h.2]

/-- rstripP keeps a string whose last character is not stripped. -/
theorem rstripPKeep {p : Char → Bool} (s : Str) {d : Char} (hd : p d = false) :
    rstripP p (s ++ [d]) = s ++ [d] := by
  simp [rstripP, List.reverse_append, List.dropWhile_cons, hd]

/-- pyStrip keeps a string whose first and last characters are not whitespace. -/
theorem pyStripKeep {c d : Char} (mid : Str) (hc : isSpaceC c = false)
    (hd : isSpaceC d = false) :
    pyStrip (c :: (mid ++ [d])) = c :: (mid ++ [d]) := by
  unfold pyStrip stripP lstripP
  rw [show (c :: (mid ++ [d])).dropWhile isSpaceC = c :: (mid ++ [d]) by
    simp [List.dropWhile_cons, hc]]
  rw [show c :: (mid ++ [d]) = (c :: mid) ++ [d] by simp]
  exact rstripPKeep (c :: mid) hd

/-! ## Claim C8 — validate_obd_code versus the spec's anchored regex -/

/-- Claim C8 as stated is refuted here: Python `$` also matches just before a
single trailing newline, so `validate_obd_code` accepts the six-character
string `"P0301\n"`, which does not match the spec's anchored pattern
`^[PBCU][0-9]{4}$`; the claimed equivalence fails at this input. -/
theorem C8_counterexample :
    validate_obd_code ((r"P0301").data ++ ['\n']) = true ∧
    specObdFormat ((r"P0301").data ++ ['\n']) = false := by
  constructor
  · decide
  · decide

/-- Claim C8 (amended): `validate_obd_code code` is true iff `code` matches
`^[PBCU][0-9]{4}$` case-insensitively in Python `re` semantics — that is, iff
`code` is a `[PBCU]` letter (either case) plus four digits, or that followed by
one terminal newline (which Python `$` accepts); in particular it is false for
"P030", "X0301" and the empty string. -/
theorem C8_validate_obd_code_spec :
    (∀ code : Str, validate_obd_code code = true ↔
      (specObdFormat code = true ∨ ∃ s, code = s ++ ['\n'] ∧ specObdFormat s = true)) ∧
    validate_obd_code (r"P030").data = false ∧
    validate_obd_code (r"X0301").data = false ∧
    validate_obd_code ([] : Str) = false := by
  refine ⟨?_, by decide, by decide, by decide⟩
  intro code
  constructor
  · intro h
    rcases code with _ | ⟨l, _ | ⟨a, _ | ⟨b, _ | ⟨c, _ | ⟨d, rest⟩⟩⟩⟩⟩
    iterate 5 exact Bool.noConfusion h
    simp only [validate_obd_code, Bool.and_eq_true] at h
    obtain ⟨⟨⟨⟨⟨h1, h2⟩, h3⟩, h4⟩, h5⟩, h6⟩ := h
    have hrest : rest = [] ∨ rest = ['\n'] := by
      simpa [dollarEnd] using h6
    rcases hrest with rfl | rfl
    · left
      simp [specObdFormat, h1, h2, h3, h4, h5]
    · right
      refine ⟨[l, a, b, c, d], rfl, ?_⟩
      simp [specObdFormat, h1, h2, h3, h4, h5]
  · intro h
    rcases h with hs | ⟨s, rfl, hs⟩
    · rcases code with _ | ⟨l, _ | ⟨a, _ | ⟨b, _ | ⟨c, _ | ⟨d, rest⟩⟩⟩⟩⟩
      iterate 5 exact Bool.noConfusion hs
      rcases rest with _ | ⟨x, rest⟩
      · simp only [specObdFormat, Bool.and_eq_true] at hs
        obtain ⟨⟨⟨⟨h1, h2⟩, h3⟩, h4⟩, h5⟩ := hs
        simp [validate_obd_code, dollarEnd, h1, h2, h3, h4, h5]
      · exact Bool.noConfusion hs
    · rcases s with _ | ⟨l, _ | ⟨a, _ | ⟨b, _ | ⟨c, _ | ⟨d, rest⟩⟩⟩⟩⟩
      iterate 5 exact Bool.noConfusion hs
      rcases rest with _ | ⟨x, rest⟩
      · simp only [specObdFormat, Bool.and_eq_true] at hs
        obtain ⟨⟨⟨⟨h1, h2⟩, h3⟩, h4⟩, h5⟩ := hs
        simp [validate_obd_code, dollarEnd, h1, h2, h3, h4, h5]
      · exact Bool.noConfusion hs

/-! ## Claim C9 — code extraction from message text -/

/-- Claim C9 as stated is refuted here: with spacing *inside* the digit group,
as in the spec's own example text `"p 0 3 0 1"`, the pattern
`\b([PpBbCcUu])\s*([0-9O]{4})\b` cannot match (the four `[0-9O]` characters
must be contiguous; `\s*` is only allowed between the letter and the group), so
`parse_message` extracts no code at all rather than `"P0301"`. -/
theorem C9_counterexample : parse_message_code (r"p 0 3 0 1").data = none := by decide

/-- One successful match of `_OBD_CODE_PATTERN` at the start of the text: a
`[PBCU]` letter, a whitespace run, then four contiguous `[0-9O]` characters
ending the text. -/
theorem obdCodeSearchShape {l : Char} (hl : isPBCUci l = true) {ws : Str}
    (h : ws.all isSpaceC = true) {a b c d : Char} (hsp : isSpaceC a = false)
    (ha : isDigO a = true) (hb : isDigO b = true) (hc : isDigO c = true)
    (hd : isDigO d = true) :
    obdCodeSearch false (l :: (ws ++ [a, b, c, d])) = some (l, [a, b, c, d]) := by
  have hdrop : (ws ++ [a, b, c, d]).dropWhile isSpaceC = [a, b, c, d] := by
    rw [dropWhileAppendAll h]
    simp [List.dropWhile_cons, hsp]
  simp [obdCodeSearch, obdCodeAt, hdrop, hl, ha, hb, hc, hd]

/-- Claim C9 (amended): for a text consisting of the letter `p` in either
case, then arbitrary whitespace, then a *contiguous* four-character group
spelling `0301` with a capital `O` accepted in place of either `0`,
`parse_message` extracts the code `"P0301"`.  Whitespace between the digits
themselves is not tolerated (see the counterexample). -/
theorem C9_parse_code_variants (up b1 b2 : Bool) (ws : Str) (h : ws.all isSpaceC = true) :
    parse_message_code
      ((cond up 'P' 'p') :: ws ++ [cond b1 'O' '0', '3', cond b2 'O' '0', '1'])
      = some (r"P0301").data := by
  have hstrip : pyStrip ((cond up 'P' 'p') :: ws ++ [cond b1 'O' '0', '3', cond b2 'O' '0', '1'])
      = (cond up 'P' 'p') :: ws ++ [cond b1 'O' '0', '3', cond b2 'O' '0', '1'] := by
    have h1 : isSpaceC (cond up 'P' 'p') = false := by cases up <;> decide
    have := pyStripKeep (c := cond up 'P' 'p') (d := '1')
      (ws ++ [cond b1 'O' '0', '3', cond b2 'O' '0']) h1 (by decide)
    simpa using this
  have hsearch := obdCodeSearchShape (l := cond up 'P' 'p')
    (by cases up <;> decide) h (a := cond b1 'O' '0') (b := '3') (c := cond b2 'O' '0')
    (d := '1') (by cases b1 <;> decide) (by cases b1 <;> decide) (by decide)
    (by cases b2 <;> decide) (by decide)
  unfold parse_message_code
  rw [hstrip]
  show (match obdCodeSearch false ((cond up 'P' 'p') ::
      (ws ++ [cond b1 'O' '0', '3', cond b2 'O' '0', '1'])) with
    | some (l, ds) => some (normalize_code l ds)
    | none => none) = some (r"P0301").data
  rw [hsearch]
  cases up <;> cases b1 <;> cases b2 <;> rfl

/-- Witness for C9: the amended theorem applied at the concrete text
`"p O301"` (lower-case letter, one space, capital O for the first zero). -/
theorem C9_witness :
    (([' '] : Str).all isSpaceC = true) ∧
    parse_message_code ('p' :: [' '] ++ ['O', '3', '0', '1']) = some (r"P0301").data :=
  ⟨by decide, C9_parse_code_variants false true false [' '] (by decide)⟩

/-! ## Claim C4 — an external-cache hit answers without search or AI -/

/-- Claim C4: whenever enrichment is enabled and an `ExternalCacheEntry` is
stored for the exact `(code, normalized vehicle)` key, `get_external_obd`
returns the stored summary (marked `from_ai`) and its run contains no search
call and no AI call — only the single cache read. -/
theorem C4_cache_hit_no_network (env : Env) (db : Db) (net : Net) (code : Str)
    (vehicle : Option Veh) (entry : CacheDoc)
    (hon : envTrue (getenvD env (r"INTERNET_FALLBACK_ENABLED").data (r"False").data) = true)
    (hhit : db.external_cache_find (upperS code) (vnormOf vehicle) = Res.ok (some entry)) :
    get_external_obd env db net code vehicle =
      (Res.ok (some ⟨entry.description, entry.causes, entry.checks, some entry.sources, true⟩),
       [Ev.cacheFind (upperS code) (vnormOf vehicle)]) ∧
    (get_external_obd env db net code vehicle).2.any Ev.isSearchCall = false ∧
    (get_external_obd env db net code vehicle).2.any Ev.isAiCall = false := by
  have hmain : get_external_obd env db net code vehicle =
      (Res.ok (some ⟨entry.description, entry.causes, entry.checks, some entry.sources, true⟩),
       [Ev.cacheFind (upperS code) (vnormOf vehicle)]) := by
    simp only [get_external_obd, hon, hhit, Bool.not_true, Bool.false_eq_true, if_false]
  refine ⟨hmain, ?_, ?_⟩ <;> rw [hmain] <;> rfl

/-- Witness for C4: the `(P0401, {})` scenario of the spec, evaluated on the
concrete datastore `dbCacheP0401`. -/
theorem C4_witness :
    (envTrue (getenvD envNetOn (r"INTERNET_FALLBACK_ENABLED").data (r"False").data) = true) ∧
    (dbCacheP0401.external_cache_find (upperS (r"P0401").data) (vnormOf none) =
      Res.ok (some cacheP0401)) ∧
    get_external_obd envNetOn dbCacheP0401 netEmpty (r"P0401").data none =
      (Res.ok (some ⟨cacheP0401.description, cacheP0401.causes, cacheP0401.checks,
        some cacheP0401.sources, true⟩),
       [Ev.cacheFind (upperS (r"P0401").data) (vnormOf none)]) :=
  ⟨by decide, by decide,
   (C4_cache_hit_no_network envNetOn dbCacheP0401 netEmpty (r"P0401").data none cacheP0401
     (by decide) (by decide)).1⟩

/-! ## Claim C1 — the resolver and the unguarded primary read -/

/-- Claim C1 as stated is refuted here: the `obd_codes` `find_one` at
obd.py line 71 sits outside every `try` block, so a datastore failure on the
primary read propagates to the caller instead of falling through to the next
tier.  With an otherwise healthy datastore whose primary read raises,
`get_obd_info` raises. -/
theorem C1_counterexample :
    (get_obd_info [] dbPrimaryRaises netEmpty (r"P0420").data none).1 = Res.exn := by decide

/-- Claim C1 (amended): the resolver never raises *except* through the one
unguarded primary read: for every environment, datastore, network and input,
if the `obd_codes` lookup of the upper-cased code does not raise, then
`get_obd_info` returns a record.  All other datastore, search and AI failures
are caught at their tier boundary and only cause fallback. -/
theorem C1_no_raise_unless_primary_read (env : Env) (db : Db) (net : Net) (code : Str)
    (vehicle : Option Veh) (h : db.obd_codes_find (upperS code) ≠ Res.exn) :
    ∃ r evs, get_obd_info env db net code vehicle = (Res.ok r, evs) := by
  cases h0 : (tier0 env db code vehicle).1 with
  | some r =>
    exact ⟨r, (tier0 env db code vehicle).2, by simp [get_obd_info, h0]⟩
  | none =>
    cases hf : db.obd_codes_find (upperS code) with
    | exn => exact absurd hf h
    | ok odoc =>
      cases odoc with
      | none =>
        exact ⟨(notFoundBranch env db net code vehicle).1,
          (tier0 env db code vehicle).2 ++ [Ev.codesFind (upperS code)] ++
            (notFoundBranch env db net code vehicle).2,
          by simp [get_obd_info, h0, hf]⟩
      | some doc =>
        exact ⟨(docBranch env db net code vehicle doc).1,
          (tier0 env db code vehicle).2 ++ [Ev.codesFind (upperS code)] ++
            (docBranch env db net code vehicle doc).2,
          by simp [get_obd_info, h0, hf]⟩

/-- Witness for C1: the amended theorem applied to the empty datastore, whose
primary read succeeds (with no document), so resolution returns a record. -/
theorem C1_witness :
    (dbEmpty.obd_codes_find (upperS (r"P0420").data) ≠ Res.exn) ∧
    ∃ r evs, get_obd_info [] dbEmpty netEmpty (r"P0420").data none = (Res.ok r, evs) :=
  ⟨by decide,
   C1_no_raise_unless_primary_read [] dbEmpty netEmpty (r"P0420").data none (by decide)⟩

/-! ## Claim C3 — vehicle overrides are never consulted -/

/-- Claim C3 as stated is refuted here: in the spec's own scenario — an
override for `(P0705, {make: toyota, model: hilux})` with
`known_issues=["range sensor faulty"]` and a primary `P0705` record with
causes `["wiring damage"]` — resolution does not return causes beginning with
"range sensor faulty": the resolver has no override-merge step, and the weak
primary causes are replaced wholesale by the canonical P0705 backfill. -/
theorem C3_counterexample :
    dbOverrideP0705.vehicle_overrides_find (r"P0705").data
      ⟨(r"toyota").data, (r"hilux").data, [], []⟩ = Res.ok (some ovP0705) ∧
    dbOverrideP0705.obd_codes_find (r"P0705").data = Res.ok (some docP0705) ∧
    (get_obd_info [] dbOverrideP0705 netEmpty (r"P0705").data (some vehHilux)).1 =
      Res.ok recP0705 ∧
    preL (r"range sensor faulty").data recP0705.common_causes = false := by
  refine ⟨by decide, by decide, by decide, by decide⟩

/-- Claim C3 (amended): the resolver never reads the `vehicle_overrides`
collection — its result and event trace are invariant under replacing that
oracle — and in the spec's scenario it returns the sanitized primary record
with the canonical P0705 causes (beginning "Transmission range sensor (TRS)
faulty or misaligned"); the returned record carries no `source` or
`confidence` field. -/
theorem C3_no_override_merge :
    (∀ (env : Env) (db : Db) (net : Net) (code : Str) (vehicle : Option Veh)
      (f g : Str → VNorm → Res (Option OverrideDoc)),
      get_obd_info env { db with vehicle_overrides_find := f } net code vehicle =
      get_obd_info env { db with vehicle_overrides_find := g } net code vehicle) ∧
    (get_obd_info [] dbOverrideP0705 netEmpty (r"P0705").data (some vehHilux)).1 =
      Res.ok recP0705 ∧
    preL (r"Transmission range sensor (TRS) faulty or misaligned").data
      recP0705.common_causes = true := by
  refine ⟨fun env db net code vehicle f g => rfl, by decide, by decide⟩

/-! ## Claim C5 — persistence only from the AI path -/

/-- With no AI summary, `extFinish` persists nothing: its event list is
exactly the incoming one and the returned summary is marked heuristic. -/
theorem extFinish_heuristic (env : Env) (code : Str) (v : VNorm)
    (results : List SearchResult) (evs : List Ev) :
    (extFinish env code v results none evs).2 = evs ∧
    ∀ out, (extFinish env code v results none evs).1 = Res.ok (some out) →
      out.from_ai = false := by
  constructor
  · show (evs ++ []) ++ [] = evs
    simp
  · intro out h
    cases h
    rfl

/-- Claim C5: if an enrichment run wrote to the external cache or to the
promoted per-vehicle summaries, then the summary originated from the AI path —
the search succeeded and the AI provider returned a summary — and the value
returned is marked `from_ai`.  A heuristically extracted summary is returned
but never persisted. -/
theorem C5_persist_only_from_ai (env : Env) (db : Db) (net : Net) (code : Str)
    (vehicle : Option Veh)
    (h : ((get_external_obd env db net code vehicle).2.any
      (fun e => e.isCacheWrite || e.isPvWrite)) = true) :
    ∃ results s,
      net.web_search code vehicle = Res.ok results ∧
      net.gemini code results vehicle = Res.ok (some s) ∧
      ∃ out evs,
        get_external_obd env db net code vehicle = (Res.ok (some out), evs) ∧
        out.from_ai = true := by
  cases hint : envTrue (getenvD env (r"INTERNET_FALLBACK_ENABLED").data (r"False").data) with
  | false => simp [get_external_obd, hint] at h
  | true =>
    cases hc : db.external_cache_find (upperS code) (vnormOf vehicle) with
    | exn => simp [get_external_obd, hint, hc, Ev.isCacheWrite, Ev.isPvWrite] at h
    | ok oc =>
      cases oc with
      | some cached => simp [get_external_obd, hint, hc, Ev.isCacheWrite, Ev.isPvWrite] at h
      | none =>
        cases hs : net.web_search code vehicle with
        | exn => simp [get_external_obd, hint, hc, hs, Ev.isCacheWrite, Ev.isPvWrite] at h
        | ok rs =>
          cases rs with
          | nil => simp [get_external_obd, hint, hc, hs, Ev.isCacheWrite, Ev.isPvWrite] at h
          | cons rhd rtl =>
            cases hAi : (envTrue (getenvD env (r"AI_ENRICH_ENABLED").data (r"False").data) &&
                lowerS (pyStrip (getenvD env (r"AI_PROVIDER").data [])) = (r"gemini").data :
                Bool) with
            | false =>
              have hev := (extFinish_heuristic env code (vnormOf vehicle) (rhd :: rtl)
                [Ev.cacheFind (upperS code) (vnormOf vehicle), Ev.searchCall code]).1
              simp [get_external_obd, hint, hc, hs, hAi, hev,
                Ev.isCacheWrite, Ev.isPvWrite] at h
            | true =>
              cases hg : net.gemini code (rhd :: rtl) vehicle with
              | exn =>
                simp [get_external_obd, hint, hc, hs, hAi, hg,
                  Ev.isCacheWrite, Ev.isPvWrite] at h
              | ok osum =>
                cases osum with
                | none =>
                  have hev := (extFinish_heuristic env code (vnormOf vehicle) (rhd :: rtl)
                    [Ev.cacheFind (upperS code) (vnormOf vehicle), Ev.searchCall code,
                     Ev.aiCall code]).1
                  simp [get_external_obd, hint, hc, hs, hAi, hg, hev,
                    Ev.isCacheWrite, Ev.isPvWrite] at h
                | some s =>
                  have h1 : get_external_obd env db net code vehicle =
                      extFinish env code (vnormOf vehicle) (rhd :: rtl) (some s)
                        [Ev.cacheFind (upperS code) (vnormOf vehicle), Ev.searchCall code,
                         Ev.aiCall code] := by
                    simp [get_external_obd, hint, hc, hs, hAi, hg]
                  refine ⟨rhd :: rtl, s, rfl, hg, ?_⟩
                  rw [h1]
                  exact ⟨_, _, rfl, rfl⟩

/-- Witness for C5: with Gemini enabled and responding, the run writes the
cache, and the theorem recovers the AI provenance. -/
theorem C5_witness :
    (((get_external_obd envAiOn dbEmpty netAiW (r"P0401").data none).2.any
      (fun e => e.isCacheWrite || e.isPvWrite)) = true) ∧
    ∃ results s,
      netAiW.web_search (r"P0401").data none = Res.ok results ∧
      netAiW.gemini (r"P0401").data results none = Res.ok (some s) ∧
      ∃ out evs,
        get_external_obd envAiOn dbEmpty netAiW (r"P0401").data none =
          (Res.ok (some out), evs) ∧
        out.from_ai = true :=
  ⟨by decide, C5_persist_only_from_ai envAiOn dbEmpty netAiW (r"P0401").data none (by decide)⟩

/-! ## Claim C7 — vehicle-key normalization versus the per-vehicle tier -/

/-- Enrichment never reads the per-vehicle summaries collection. -/
theorem extFinish_no_pvFind (env : Env) (code : Str) (v : VNorm)
    (results : List SearchResult) (osum : Option Summary) (evs : List Ev)
    (h : evs.any Ev.isPvFind = false) :
    ((extFinish env code v results osum evs).2.any Ev.isPvFind) = false := by
  rcases osum with _ | s
  · have hev := (extFinish_heuristic env code v results evs).1
    rw [hev, h]
  · unfold extFinish
    simp only [List.any_append, h, Option.isSome_some, Bool.false_or, if_true,
      List.any_cons, List.any_nil, Ev.isPvFind, Bool.or_false]
    split
    · simp [Ev.isPvFind]
    · rfl

/-- `get_external_obd` never reads the per-vehicle summaries collection. -/
theorem ext_no_pvFind (env : Env) (db : Db) (net : Net) (code : Str) (vehicle : Option Veh) :
    ((get_external_obd env db net code vehicle).2.any Ev.isPvFind) = false := by
  cases hint : envTrue (getenvD env (r"INTERNET_FALLBACK_ENABLED").data (r"False").data) with
  | false => simp [get_external_obd, hint]
  | true =>
    cases hc : db.external_cache_find (upperS code) (vnormOf vehicle) with
    | exn => simp [get_external_obd, hint, hc, Ev.isPvFind]
    | ok oc =>
      cases oc with
      | some cached => simp [get_external_obd, hint, hc, Ev.isPvFind]
      | none =>
        cases hs : net.web_search code vehicle with
        | exn => simp [get_external_obd, hint, hc, hs, Ev.isPvFind]
        | ok rs =>
          cases rs with
          | nil => simp [get_external_obd, hint, hc, hs, Ev.isPvFind]
          | cons rhd rtl =>
            cases hAi : (envTrue (getenvD env (r"AI_ENRICH_ENABLED").data (r"False").data) &&
                lowerS (pyStrip (getenvD env (r"AI_PROVIDER").data [])) = (r"gemini").data :
                Bool) with
            | false =>
              have hno := extFinish_no_pvFind env code (vnormOf vehicle) (rhd :: rtl) none
                [Ev.cacheFind (upperS code) (vnormOf vehicle), Ev.searchCall code]
                (by simp [Ev.isPvFind])
              simpa [get_external_obd, hint, hc, hs, hAi] using hno
            | true =>
              cases hg : net.gemini code (rhd :: rtl) vehicle with
              | exn => simp [get_external_obd, hint, hc, hs, hAi, hg, Ev.isPvFind]
              | ok osum =>
                have hno := extFinish_no_pvFind env code (vnormOf vehicle) (rhd :: rtl) osum
                  [Ev.cacheFind (upperS code) (vnormOf vehicle), Ev.searchCall code,
                   Ev.aiCall code]
                  (by simp [Ev.isPvFind])
                simpa [get_external_obd, hint, hc, hs, hAi, hg] using hno

/-- The not-found branch never reads the per-vehicle summaries collection. -/
theorem notFoundBranch_no_pvFind (env : Env) (db : Db) (net : Net) (code : Str)
    (vehicle : Option Veh) :
    ((notFoundBranch env db net code vehicle).2.any Ev.isPvFind) = false := by
  have hno := ext_no_pvFind env db net (upperS code) vehicle
  unfold notFoundBranch
  rcases he : get_external_obd env db net (upperS code) vehicle with ⟨res, evs⟩
  rw [he] at hno
  cases res with
  | exn => exact hno
  | ok o =>
    cases o with
    | none => exact hno
    | some ext => exact hno

/-- The primary-record branch never reads the per-vehicle summaries
collection. -/
theorem docBranch_no_pvFind (env : Env) (db : Db) (net : Net) (code : Str)
    (vehicle : Option Veh) (doc : CodeDoc) :
    ((docBranch env db net code vehicle doc).2.any Ev.isPvFind) = false := by
  have hno := ext_no_pvFind env db net (upperS code) vehicle
  unfold docBranch
  rcases he : get_external_obd env db net (upperS code) vehicle with ⟨res, evs⟩
  rw [he] at hno
  simp only [List.any_append]
  split
  · cases res with
    | exn =>
      simp only [List.any_append, hno, Bool.or_false]
      split <;> simp [Ev.isPvFind]
    | ok o =>
      cases o with
      | none =>
        simp only [List.any_append, hno, Bool.or_false]
        split <;> simp [Ev.isPvFind]
      | some ext =>
        simp only [List.any_append, hno, Bool.or_false]
        split <;> simp [Ev.isPvFind]
  · split <;> simp [Ev.isPvFind]

/-- Claim C7 as stated is refuted here: with a promoted per-vehicle summary
stored under `(P0301, all-empty vehicle key)`, resolving with `vehicle=None`
and with `vehicle={"make": None, "model": None, "year": None, "engine": None}`
produce *different* records — the `None` vehicle is falsy, so the per-vehicle
cache tier is skipped entirely rather than consulted under the normalized
key. -/
theorem C7_counterexample :
    (get_obd_info [] dbPvP0301 netEmpty (r"P0301").data none).1 ≠
    (get_obd_info [] dbPvP0301 netEmpty (r"P0301").data
      (some ⟨none, none, none, none⟩)).1 := by decide

/-- Claim C7 (amended): key normalization itself maps absent fields to empty
strings, so `vehicle=None` and the all-`None` dict normalize to the identical
key (hence the *external* cache is consulted identically for both); but the
per-vehicle summaries tier is guarded by the truthiness of the vehicle dict,
so a resolution with `vehicle=None` never reads `obd_summaries` at all. -/
theorem C7_none_skips_per_vehicle_tier (env : Env) (db : Db) (net : Net) (code : Str) :
    vnormOf none = vnormOf (some ⟨none, none, none, none⟩) ∧
    ((get_obd_info env db net code none).2.any Ev.isPvFind) = false := by
  refine ⟨rfl, ?_⟩
  have ht : tier0 env db code none = (none, []) := rfl
  cases hf : db.obd_codes_find (upperS code) with
  | exn => simp [get_obd_info, ht, hf, Ev.isPvFind]
  | ok o =>
    cases o with
    | none =>
      simp [get_obd_info, ht, hf, List.any_append, Ev.isPvFind,
        notFoundBranch_no_pvFind env db net code none]
    | some doc =>
      simp [get_obd_info, ht, hf, List.any_append, Ev.isPvFind,
        docBranch_no_pvFind env db net code none doc]

/-! ## Strip and dedupe lemmas -/

/-- A map fixing every member is the identity. -/
theorem mapEqSelf {α : Type} {f : α → α} {l : List α} (h : ∀ x ∈ l, f x = x) :
    l.map f = l := by
  induction l with
  | nil => rfl
  | cons a t ih =>
    simp only [List.map_cons, h a (List.mem_cons_self a t)]
    rw [ih (fun x hx => h x (List.mem_cons_of_mem a hx))]

/-- dropWhile is idempotent. -/
theorem dropWhileIdem (p : Char → Bool) (s : Str) :
    (s.dropWhile p).dropWhile p = s.dropWhile p := by
  induction s with
  | nil => rfl
  | cons a t ih =>
    by_cases h : p a = true
    · simp [List.dropWhile_cons, h, ih]
    · simp [List.dropWhile_cons, h]

/-- A member whose character survives the predicate survives dropWhile. -/
theorem memDropWhile {p : Char → Bool} {c : Char} {l : Str} (hm : c ∈ l)
    (hc : p c = false) : c ∈ l.dropWhile p := by
  induction l with
  | nil => cases hm
  | cons a t ih =>
    rw [List.dropWhile_cons]
    split
    · next hpa =>
      rcases List.mem_cons.mp hm with rfl | hmem
      · rw [hc] at hpa; cases hpa
      · exact ih hmem
    · exact hm

/-- stripP keeps some character whenever the string has one outside the
stripped class; in particular the result is non-empty. -/
theorem stripPNeNil {p : Char → Bool} {c : Char} {s : Str} (hm : c ∈ s)
    (hc : p c = false) : stripP p s ≠ [] := by
  intro h
  have h1 : c ∈ s.dropWhile p := memDropWhile hm hc
  have h2 : c ∈ (s.dropWhile p).reverse := List.mem_reverse.mpr h1
  have h3 : c ∈ (s.dropWhile p).reverse.dropWhile p := memDropWhile h2 hc
  have h4 : c ∈ stripP p s := by
    unfold stripP rstripP lstripP
    exact List.mem_reverse.mpr h3
  rw [h] at h4
  cases h4

/-- The rstripped string is a prefix of the original. -/
theorem rstripPrefix (p : Char → Bool) (s : Str) : ∃ u, s = rstripP p s ++ u := by
  refine ⟨(s.reverse.takeWhile p).reverse, ?_⟩
  unfold rstripP
  calc s = s.reverse.reverse := (List.reverse_reverse s).symm
  _ = (s.reverse.takeWhile p ++ s.reverse.dropWhile p).reverse := by
      rw [List.takeWhile_append_dropWhile]
  _ = (s.reverse.dropWhile p).reverse ++ (s.reverse.takeWhile p).reverse :=
      List.reverse_append _ _

/-- A cons fixed by dropWhile has a head outside the class. -/
theorem dropWhileConsSelf {p : Char → Bool} {a : Char} {t : Str}
    (h : (a :: t).dropWhile p = a :: t) : p a = false := by
  by_contra hcon
  have hpa : p a = true := by
    cases hv : p a
    · exact absurd hv hcon
    · rfl
  rw [List.dropWhile_cons, if_pos hpa] at h
  have hlen := congrArg List.length h
  have hle := (List.dropWhile_sublist p (l := t)).length_le
  simp only [List.length_cons] at hlen
  omega

/-- stripP is idempotent. -/
theorem stripPIdem (p : Char → Bool) (s : Str) : stripP p (stripP p s) = stripP p s := by
  have hdrop : ∀ t : Str, t.dropWhile p = t → (rstripP p t).dropWhile p = rstripP p t := by
    intro t ht
    rcases rstripPrefix p t with ⟨u, hu⟩
    cases hr : rstripP p t with
    | nil => rfl
    | cons a r =>
      rw [hu, hr, List.cons_append] at ht
      have hpa : p a = false := dropWhileConsSelf ht
      simp [List.dropWhile_cons, hpa]
  have hrr : ∀ t : Str, rstripP p (rstripP p t) = rstripP p t := by
    intro t
    unfold rstripP
    rw [List.reverse_reverse, dropWhileIdem]
  show rstripP p ((rstripP p (s.dropWhile p)).dropWhile p) = rstripP p (s.dropWhile p)
  rw [hdrop (s.dropWhile p) (dropWhileIdem p s), hrr]

/-- pyStrip is idempotent. -/
theorem pyStripIdem (s : Str) : pyStrip (pyStrip s) = pyStrip s := stripPIdem isSpaceC s

/-- stripP keeps a string whose first and last characters are outside the
class. -/
theorem stripPKeepG {p : Char → Bool} {c d : Char} (mid : Str) (hc : p c = false)
    (hd : p d = false) : stripP p (c :: (mid ++ [d])) = c :: (mid ++ [d]) := by
  unfold stripP lstripP
  rw [show (c :: (mid ++ [d])).dropWhile p = c :: (mid ++ [d]) by
    simp [List.dropWhile_cons, hc]]
  rw [show c :: (mid ++ [d]) = (c :: mid) ++ [d] by simp]
  exact rstripPKeep (c :: mid) hd

/-- Elements of `dedupeGo` output: strip-fixed, non-empty, key not in `seen`,
and each is the strip of an input element. -/
theorem dedupeGoMem : ∀ {l : List Str} {seen : List Str} {x : Str}, x ∈ dedupeGo seen l →
    pyStrip x = x ∧ x ≠ [] ∧ lowerS x ∉ seen ∧ ∃ y ∈ l, x = pyStrip y := by
  intro l
  induction l with
  | nil => intro seen x h; cases h
  | cons a t ih =>
    intro seen x h
    simp only [dedupeGo] at h
    split_ifs at h with h1 h2
    · rcases ih h with ⟨p1, p2, p3, y, hy, hxy⟩
      exact ⟨p1, p2, p3, y, List.mem_cons_of_mem a hy, hxy⟩
    · rcases ih h with ⟨p1, p2, p3, y, hy, hxy⟩
      exact ⟨p1, p2, p3, y, List.mem_cons_of_mem a hy, hxy⟩
    · rcases List.mem_cons.mp h with rfl | hmem
      · refine ⟨pyStripIdem a, ?_, h2, a, List.mem_cons_self a t, rfl⟩
        intro hnil
        rw [hnil] at h1
        exact h1 rfl
      · rcases ih hmem with ⟨p1, p2, p3, y, hy, hxy⟩
        refine ⟨p1, p2, fun hm => p3 (List.mem_cons_of_mem _ hm), y,
          List.mem_cons_of_mem a hy, hxy⟩

/-- The lower-cased keys of `dedupeGo` output are distinct and disjoint from
`seen`. -/
theorem dedupeGoNodup : ∀ (l seen : List Str),
    ((dedupeGo seen l).map lowerS).Nodup := by
  intro l
  induction l with
  | nil => intro seen; simp [dedupeGo]
  | cons a t ih =>
    intro seen
    simp only [dedupeGo]
    split_ifs with h1 h2
    · exact ih seen
    · exact ih seen
    · simp only [List.map_cons, List.nodup_cons]
      refine ⟨?_, ih _⟩
      intro hmem
      rcases List.mem_map.mp hmem with ⟨z, hz, hez⟩
      have := (dedupeGoMem hz).2.2.1
      rw [hez] at this
      exact this (List.mem_cons_self _ _)

/-- `dedupeGo` keeps something whenever the input has a usable fresh element. -/
theorem dedupeGoNeNil : ∀ {l : List Str} (seen : List Str),
    (∃ x ∈ l, pyStrip x ≠ [] ∧ lowerS (pyStrip x) ∉ seen) → dedupeGo seen l ≠ [] := by
  intro l
  induction l with
  | nil =>
    intro seen h
    rcases h with ⟨x, hx, _⟩
    cases hx
  | cons a t ih =>
    intro seen h
    simp only [dedupeGo]
    split_ifs with h1 h2
    · rcases h with ⟨x, hx, hx1, hx2⟩
      rcases List.mem_cons.mp hx with rfl | hmem
      · exact absurd (List.isEmpty_iff.mp h1) hx1
      · exact ih seen ⟨x, hmem, hx1, hx2⟩
    · rcases h with ⟨x, hx, hx1, hx2⟩
      rcases List.mem_cons.mp hx with rfl | hmem
      · exact absurd h2 hx2
      · exact ih seen ⟨x, hmem, hx1, hx2⟩
    · simp

/-- `dedupeGo` is the identity on already-clean lists with fresh keys. -/
theorem dedupeGoFix : ∀ {l : List Str} (seen : List Str),
    (∀ x ∈ l, pyStrip x = x ∧ x ≠ []) → (l.map lowerS).Nodup →
    (∀ x ∈ l, lowerS x ∉ seen) → dedupeGo seen l = l := by
  intro l
  induction l with
  | nil => intro seen _ _ _; rfl
  | cons a t ih =>
    intro seen hclean hnd hfresh
    have ha := hclean a (List.mem_cons_self a t)
    simp only [dedupeGo, ha.1]
    rw [if_neg (by simpa [List.isEmpty_iff] using ha.2),
        if_neg (hfresh a (List.mem_cons_self a t))]
    have hnd2 : (∀ x ∈ t, ¬lowerS x = lowerS a) ∧ (t.map lowerS).Nodup := by
      simpa using hnd
    congr 1
    refine ih _ (fun x hx => hclean x (List.mem_cons_of_mem a hx)) hnd2.2 ?_
    intro x hx hmem
    rcases List.mem_cons.mp hmem with heq | hseen
    · exact hnd2.1 x hx heq
    · exact hfresh x (List.mem_cons_of_mem a hx) hseen

/-- Take of a non-empty list is non-empty. -/
theorem takeNeNil {α : Type} {l : List α} (h : l ≠ []) : l.take 6 ≠ [] := by
  cases l with
  | nil => exact absurd rfl h
  | cons a t => simp

/-- Bundled facts about `(dedupe_str_list L).take 6`: with one usable input
element it is non-empty, at most 6 long, and case-insensitively distinct. -/
theorem cleanShape (L : List Str) (h : ∃ x ∈ L, pyStrip x ≠ []) :
    (dedupe_str_list L).take 6 ≠ [] ∧ ((dedupe_str_list L).take 6).length ≤ 6 ∧
    (((dedupe_str_list L).take 6).map lowerS).Nodup := by
  refine ⟨?_, ?_, ?_⟩
  · apply takeNeNil
    apply dedupeGoNeNil []
    rcases h with ⟨x, hx, hne⟩
    exact ⟨x, hx, hne, by simp⟩
  · exact List.length_take_le 6 (dedupe_str_list L)
  · rw [List.map_take]
    exact (dedupeGoNodup L []).sublist (List.take_sublist 6 _)

/-- Every element of `suggest_checks_from_causes` is strip-fixed and
non-empty. -/
theorem suggestMem {causes : List Str} {x : Str}
    (h : x ∈ suggest_checks_from_causes causes) : pyStrip x = x ∧ x ≠ [] := by
  unfold suggest_checks_from_causes at h
  have h2 := List.take_subset _ _ h
  split at h2
  · rcases List.mem_cons.mp h2 with rfl | h3
    · exact ⟨by decide, by decide⟩
    · cases h3
  · exact ⟨(dedupeGoMem h2).1, (dedupeGoMem h2).2.1⟩

/-- `suggest_checks_from_causes` never returns an empty list (search.py lines
67-69: an empty synthesis is replaced by the fixed default check). -/
theorem suggestNeNil (causes : List Str) : suggest_checks_from_causes causes ≠ [] := by
  unfold suggest_checks_from_causes
  apply takeNeNil
  split
  · simp
  · next hne => exact fun heq => hne (by rw [heq]; rfl)

/-- Elements of `checksPre` are strip-fixed and non-empty. -/
theorem checksPreMem {code : Str} {causes raw : List Str} {x : Str}
    (h : x ∈ checksPre code causes raw) : pyStrip x = x ∧ x ≠ [] := by
  unfold checksPre at h
  have h2 := List.take_subset _ _ h
  exact ⟨(dedupeGoMem h2).1, (dedupeGoMem h2).2.1⟩

/-- `checksPre` never returns the empty list: when fewer than two checks
survive the filter, synthesis from the causes takes over, and the synthesis
has a fixed non-empty default. -/
theorem checksPreNeNil (code : Str) (causes raw : List Str) :
    checksPre code causes raw ≠ [] := by
  unfold checksPre
  apply takeNeNil
  apply dedupeGoNeNil []
  split
  · cases hs : suggest_checks_from_causes causes with
    | nil => exact absurd hs (suggestNeNil causes)
    | cons a t =>
      have ha : a ∈ suggest_checks_from_causes causes := by
        rw [hs]; exact List.mem_cons_self a t
      refine ⟨a, List.mem_cons_self a t, ?_, by simp⟩
      rw [(suggestMem ha).1]
      exact (suggestMem ha).2
  · next hcond =>
    cases hk : ((stripNonempty raw).map (fun ck => pyStrip (stripCheckColon ck))).filter
        (checkKeep code) with
    | nil => rw [hk] at hcond; exact absurd (by simp) hcond
    | cons a t =>
      have ha : a ∈ ((stripNonempty raw).map (fun ck => pyStrip (stripCheckColon ck))).filter
          (checkKeep code) := by
        rw [hk]; exact List.mem_cons_self a t
      have hkeep : checkKeep code a = true := List.of_mem_filter ha
      have hmapped := List.mem_of_mem_filter ha
      rcases List.mem_map.mp hmapped with ⟨z, _, hz⟩
      have hstrip : pyStrip a = a := by rw [← hz, pyStripIdem]
      have hane : a ≠ [] := by
        intro heq
        rw [heq] at hkeep
        simp [checkKeep] at hkeep
      exact ⟨a, List.mem_cons_self a t, by rw [hstrip]; exact hane, by simp⟩

/-- The final checks of the sanitizer: non-empty, at most six, and pairwise
distinct case-insensitively, whatever the code and input. -/
theorem checksFinalProps (code : Str) (causes0 raw : List Str) :
    checksFinal code causes0 raw ≠ [] ∧ (checksFinal code causes0 raw).length ≤ 6 ∧
    ((checksFinal code causes0 raw).map lowerS).Nodup := by
  have hpre : checksPre code causes0 raw ≠ [] ∧ (checksPre code causes0 raw).length ≤ 6 ∧
      ((checksPre code causes0 raw).map lowerS).Nodup := by
    refine ⟨checksPreNeNil code causes0 raw, ?_, ?_⟩
    · show ((dedupe_str_list _).take 6).length ≤ 6
      exact List.length_take_le 6 _
    · show (((dedupe_str_list _).take 6).map lowerS).Nodup
      rw [List.map_take]
      exact (dedupeGoNodup _ []).sublist (List.take_sublist 6 _)
  have hp03 : ∀ c : Option Nat, ∃ x ∈ p03CheckList c, pyStrip x ≠ [] := by
    intro c
    refine ⟨(r"Check for vacuum leaks around intake hoses/gaskets").data, ?_, by decide⟩
    rcases c with _ | n
    · simp [p03CheckList, p03CheckList.p03CheckListGeneric]
    · by_cases hn : n = 0 <;> simp [p03CheckList, p03CheckList.p03CheckListGeneric, hn]
  have h05 : ∃ x ∈ p0705Checks, pyStrip x ≠ [] := by
    refine ⟨(r"Verify TRS alignment and selector linkage adjustment").data, ?_, by decide⟩
    simp [p0705Checks]
  have hshape : checksFinal code causes0 raw = checksPre code causes0 raw ∨
      checksFinal code causes0 raw =
        (dedupe_str_list (p03CheckList (cylNumOf (pyStrip (upperS code))))).take 6 ∨
      checksFinal code causes0 raw = (dedupe_str_list p0705Checks).take 6 := by
    simp only [checksFinal]
    split_ifs <;>
      first
        | exact Or.inl rfl
        | exact Or.inr (Or.inl rfl)
        | exact Or.inr (Or.inr rfl)
  rcases hshape with h | h | h <;> rw [h]
  · exact hpre
  · exact cleanShape _ (hp03 _)
  · exact cleanShape _ h05

/-! ## Claim C10 — invariants of the sanitized checks -/

/-- Claim C10: for every code and every input summary — including one whose
causes and checks are empty or entirely filtered away — the checks of the
sanitized summary are non-empty, contain at most 6 items, and are pairwise
distinct under case-insensitive comparison.  Fewer than 2 surviving checks
triggers synthesis from the causes, and the synthesis falls back to a fixed
default check, so the list can never be empty. -/
theorem C10_checks_nonempty_bounded_distinct (code : Str) (s : Summary) :
    (sanitize_summary code s).checks ≠ [] ∧
    (sanitize_summary code s).checks.length ≤ 6 ∧
    (((sanitize_summary code s).checks).map lowerS).Nodup :=
  checksFinalProps code (causesPre code s.causes) s.checks

/-! ## Claim C6 — non-empty output from non-empty input -/

/-- Claim C6 as stated is refuted here: non-empty causes do not guarantee
non-empty sanitized causes.  For the non-family code `P0100`, the single
input cause `"bad"` (shorter than 8 characters) is filtered away and no
canonical backfill applies, so the sanitizer returns an empty causes list from
a non-empty input (with non-empty checks). -/
theorem C6_counterexample :
    (sanitize_summary (r"P0100").data
      ⟨['x'], [(r"bad").data], [(r"Inspect wiring harness and connectors").data]⟩).causes
      = [] ∧
    ([(r"bad").data] : List Str) ≠ [] ∧
    ([(r"Inspect wiring harness and connectors").data] : List Str) ≠ [] := by
  refine ⟨by decide, by decide, by decide⟩

/-- Claim C6 (amended): for every code and every input summary with non-empty
causes and non-empty checks, the sanitized checks are non-empty (indeed they
are for any input whatsoever); the sanitized *causes*, however, may come out
empty. -/
theorem C6_checks_stay_nonempty (code : Str) (s : Summary)
    (hc : s.causes ≠ []) (hk : s.checks ≠ []) :
    (sanitize_summary code s).checks ≠ [] :=
  (checksFinalProps code (causesPre code s.causes) s.checks).1

/-- Witness for C6: the amended theorem at a concrete non-empty input. -/
theorem C6_witness :
    ([(r"vacuum leak near manifold").data] : List Str) ≠ [] ∧
    ([(r"Check intake hoses for cracks").data] : List Str) ≠ [] ∧
    (sanitize_summary (r"P0171").data
      ⟨(r"System too lean (Bank 1)").data, [(r"vacuum leak near manifold").data],
       [(r"Check intake hoses for cracks").data]⟩).checks ≠ [] :=
  ⟨by decide, by decide,
   C6_checks_stay_nonempty (r"P0171").data
     ⟨(r"System too lean (Bank 1)").data, [(r"vacuum leak near manifold").data],
      [(r"Check intake hoses for cracks").data]⟩ (by decide) (by decide)⟩

/-! ## Sanitizer idempotence on the causes field (C2) -/

/-- Lower-casing fixes digit characters. -/
theorem toLowerDigit {c : Char} (h : c.isDigit = true) : c.toLower = c := by
  simp [Char.isDigit] at h
  obtain ⟨h1, h2⟩ := h
  unfold Char.toLower
  have hn : c.toNat ≤ 57 := h2
  simp only [ge_iff_le]
  rw [if_neg]
  omega

/-- A pointwise-false predicate makes `List.any` false. -/
theorem anyFalse {α : Type} {p : α → Bool} {l : List α} (h : ∀ x ∈ l, p x = false) :
    l.any p = false := by
  cases hv : l.any p with
  | false => rfl
  | true =>
    rcases List.any_eq_true.mp hv with ⟨x, hx, hpx⟩
    rw [h x hx] at hpx
    cases hpx

/-- Appending a suffix drawn from a character class `P` disjoint from the
needle's characters does not change a prefix test. -/
theorem preLMixed {P : Char → Bool} : ∀ {n : Str}, n.all (fun c => !P c) = true →
    ∀ (x tail : Str), tail.all P = true → preL n (x ++ tail) = preL n x
  | [], _, _, _, _ => rfl
  | a :: n', hn, x, tail, htail => by
    have ha : P a = false := by
      have := List.all_eq_true.mp hn a (List.mem_cons_self a n')
      simpa using this
    have hn' : n'.all (fun c => !P c) = true := by
      have h2 : (!P a) = true ∧ n'.all (fun c => !P c) = true := by
        simpa [List.all_cons] using hn
      exact h2.2
    cases x with
    | nil =>
      cases tail with
      | nil => rfl
      | cons c t =>
        have hct : P c = true ∧ t.all P = true := by simpa [List.all_cons] using htail
        have hac : (a = c) = False := by
          simp only [eq_iff_iff, iff_false]
          intro hh
          rw [hh, hct.1] at ha
          cases ha
        simp [preL, hac]
    | cons b x' =>
      simp only [List.cons_append, preL, List.append_eq]
      rw [preLMixed hn' x' tail htail]

/-- A non-empty needle over `¬P` characters never occurs in an all-`P`
string. -/
theorem subLFalseAllP {P : Char → Bool} {n : Str} (hne : n ≠ [])
    (hn : n.all (fun c => !P c) = true) :
    ∀ {tail : Str}, tail.all P = true → subL n tail = false
  | [], _ => by
    cases n with
    | nil => exact absurd rfl hne
    | cons a n' => rfl
  | c :: t, htail => by
    have hct : P c = true ∧ t.all P = true := by simpa [List.all_cons] using htail
    cases n with
    | nil => exact absurd rfl hne
    | cons a n' =>
      have ha : P a = false := by
        have := List.all_eq_true.mp hn a (List.mem_cons_self a n')
        simpa using this
      have hac : (a = c) = False := by
        simp only [eq_iff_iff, iff_false]
        intro hh
        rw [hh, hct.1] at ha
        cases ha
      have hrest := subLFalseAllP hne hn hct.2
      simp only [subL, preL, hac]
      simp [hrest]

/-- Appending a suffix drawn from a class disjoint from the needle's
characters does not change a substring test. -/
theorem subLStop {P : Char → Bool} {n : Str} (hne : n ≠ [])
    (hn : n.all (fun c => !P c) = true) {tail : Str} (htail : tail.all P = true) :
    ∀ (x : Str), subL n (x ++ tail) = subL n x
  | [] => by
    simp only [List.nil_append]
    rw [subLFalseAllP hne hn htail]
    cases n with
    | nil => exact absurd rfl hne
    | cons a n' => rfl
  | c :: x' => by
    cases n with
    | nil => exact absurd rfl hne
    | cons a n' =>
      simp only [List.cons_append, subL, List.append_eq]
      have hp : preL (a :: n') (c :: (x' ++ tail)) = preL (a :: n') (c :: x') := by
        rw [show (c : Char) :: (x' ++ tail) = (c :: x') ++ tail from rfl]
        exact preLMixed hn (c :: x') tail htail
      rw [hp, subLStop hne hn htail x']

/-- Strings shorter than four characters have no four-digit run. -/
theorem run4Short : ∀ {s : Str}, s.length ≤ 3 → hasRun4 s = false
  | [], _ => rfl
  | [_], _ => rfl
  | [_, _], _ => rfl
  | [_, _, _], _ => rfl
  | _ :: _ :: _ :: _ :: _, h => by simp at h

/-- A non-digit head does not affect the four-digit-run test. -/
theorem run4ConsFalse {a : Char} (h : a.isDigit = false) :
    ∀ (t : Str), hasRun4 (a :: t) = hasRun4 t
  | [] => rfl
  | [_] => rfl
  | [_, _] => rfl
  | b :: c :: d :: rest => by simp [hasRun4, h]

/-- A tail of a run-free string is run-free. -/
theorem run4Tail : ∀ {c : Char} {t : Str}, hasRun4 (c :: t) = false → hasRun4 t = false
  | _, [], _ => rfl
  | _, [_], _ => rfl
  | _, [_, _], _ => rfl
  | c, b :: d :: e :: rest, h => by
    simp only [hasRun4, Bool.or_eq_false_iff] at h
    exact h.2

/-- A digit-free prefix does not affect the four-digit-run test. -/
theorem run4AppendFalse {u : Str} (hu : u.all (fun c => !c.isDigit) = true) (w : Str) :
    hasRun4 (u ++ w) = hasRun4 w := by
  induction u with
  | nil => rfl
  | cons a t ih =>
    have h2 : (!a.isDigit) = true ∧ t.all (fun c => !c.isDigit) = true := by
      simpa [List.all_cons] using hu
    have ha : a.isDigit = false := by simpa using h2.1
    rw [List.cons_append, run4ConsFalse ha, ih h2.2]

/-- `dtc_re` cannot match at a position of a string without four consecutive
digits. -/
theorem dtcMatchAtNone {s : Str} (h : hasRun4 s = false) (prev : Bool) :
    dtcMatchAt prev s = none := by
  match s with
  | [] => rfl
  | [_] => rfl
  | [_, _] => rfl
  | [_, _, _] => rfl
  | [_, _, _, _] => rfl
  | l :: d1 :: d2 :: d3 :: d4 :: rest =>
    simp only [hasRun4, Bool.or_eq_false_iff] at h
    have hw := h.2.1
    simp only [dtcMatchAt]
    rw [if_neg]
    intro hcond
    simp only [Bool.and_eq_true] at hcond
    obtain ⟨⟨⟨⟨⟨⟨hp, hl⟩, h1⟩, h2⟩, h3⟩, h4⟩, hx⟩ := hcond
    rw [h1, h2, h3, h4] at hw
    simp at hw

/-- `dtc_re.search` fails on every suffix of a string without four consecutive
digits. -/
theorem dtcSearchGoNone : ∀ {s : Str}, hasRun4 s = false → ∀ (prev : Bool),
    dtcSearchGo prev s = none
  | [], _, _ => rfl
  | c :: rest, h, prev => by
    simp only [dtcSearchGo]
    rw [dtcMatchAtNone h prev]
    exact dtcSearchGoNone (run4Tail h) (isWordC c)

/-- `dtc_re.search` fails on a string without four consecutive digits. -/
theorem dtcSearchNone {s : Str} (h : hasRun4 s = false) : dtcSearch s = none :=
  dtcSearchGoNone h false

/-- When a cause mentions no DTC, the cause filter reduces to its
code-independent conjuncts. -/
theorem causeKeepOfAux {code c : Str} (hd : dtcSearch c = none)
    (h : causeKeepAux c = true) : causeKeep code c = true := by
  unfold causeKeepAux at h
  unfold causeKeep
  rw [hd]
  simp only [Bool.and_eq_true] at h ⊢
  exact ⟨⟨⟨⟨⟨h.1.1.1.1, trivial⟩, h.1.1.1.2⟩, h.1.1.2⟩, h.1.2⟩, h.2⟩

/-- A non-whitespace character is not a space. -/
theorem spaceEqFalse {c : Char} (hs : isSpaceC c = false) : (decide (c = ' ')) = false := by
  cases hcc : decide (c = ' ') with
  | false => rfl
  | true =>
    exfalso
    have hc : c = ' ' := of_decide_eq_true hcc
    rw [hc] at hs
    exact absurd hs (by decide)

/-- A string ending in a closing parenthesis does not end in an ellipsis. -/
theorem sufLDotsParen (x : Str) : sufL (r"...").data (x ++ [')']) = false := by
  unfold sufL
  rw [List.reverse_append]
  show preL ['.', '.', '.'] (')' :: x.reverse) = false
  simp [preL]

/-- Decimal renderings of the cylinder numbers `0..99` are one or two digit
characters. -/
theorem natStrFin : ∀ m : Fin 100, ((natStr m.val).all Char.isDigit &&
    (decide (1 ≤ (natStr m.val).length) && decide ((natStr m.val).length ≤ 2))) = true := by
  decide

/-- Unbundled form of `natStrFin` for an arbitrary `n < 100`. -/
theorem natStrDigits {n : Nat} (h : n < 100) : (natStr n).all Char.isDigit = true ∧
    1 ≤ (natStr n).length ∧ (natStr n).length ≤ 2 := by
  have hm := natStrFin ⟨n, h⟩
  simp only [Bool.and_eq_true, decide_eq_true_eq] at hm
  exact ⟨hm.1, hm.2.1, hm.2.2⟩

/-- Canonical-template instances `lit ++ digits ++ ")"` with a well-behaved
literal are strip-fixed, non-empty, and pass the cause filter for every
code. -/
theorem paramStringOk (code : Str) {lit ds : Str} (hlit : litOk lit = true)
    (hds : ds.all Char.isDigit = true) (hd1 : 1 ≤ ds.length) (hd2 : ds.length ≤ 2) :
    pyStrip (lit ++ ds ++ [')']) = lit ++ ds ++ [')'] ∧ lit ++ ds ++ [')'] ≠ [] ∧
    causeKeep code (lit ++ ds ++ [')']) = true := by
  unfold litOk at hlit
  simp only [Bool.and_eq_true, decide_eq_true_eq] at hlit
  obtain ⟨⟨⟨⟨⟨h8, h117⟩, hnd⟩, hhead⟩, hbad⟩, hpre⟩ := hlit
  cases lit with
  | nil => exact absurd hhead (by decide)
  | cons c lit0 =>
  simp only [Bool.and_eq_true, Bool.not_eq_true'] at hhead
  obtain ⟨hc1, hc2⟩ := hhead
  have hform : (c :: lit0) ++ ds ++ [')'] = c :: ((lit0 ++ ds) ++ [')']) := by simp
  have hlen : ((c :: lit0) ++ ds ++ [')']).length = (c :: lit0).length + ds.length + 1 := by
    simp [List.length_append]
    omega
  have hdsl : List.map Char.toLower ds = ds :=
    mapEqSelf (fun x hx => toLowerDigit (List.all_eq_true.mp hds x hx))
  have htailP : (ds ++ [')']).all (fun ch => ch.isDigit || ch = ')') = true := by
    rw [List.all_eq_true]
    intro x hx
    rcases List.mem_append.mp hx with hm | hm
    · simp [List.all_eq_true.mp hds x hm]
    · rw [List.mem_singleton.mp hm]
      decide
  have hlow : lowerS ((c :: lit0) ++ ds ++ [')']) = lowerS (c :: lit0) ++ (ds ++ [')']) := by
    simp only [lowerS, List.map_append, hdsl]
    rw [show (List.map Char.toLower [')'] : Str) = [')'] from by decide]
    rw [List.append_assoc]
  have hbdec : badTokens.all
      (fun b => !b.isEmpty && b.all (fun ch => !(ch.isDigit || ch = ')'))) = true := by decide
  have hAval : (badTokens.any fun b => subL b (lowerS ((c :: lit0) ++ ds ++ [')']))) = false := by
    rw [hlow]
    apply anyFalse
    intro b hbmem
    have hbp := List.all_eq_true.mp hbdec b hbmem
    simp only [Bool.and_eq_true, Bool.not_eq_true'] at hbp
    have hbne : b ≠ [] := by
      intro hh
      rw [hh] at hbp
      exact absurd hbp.1 (by decide)
    rw [subLStop hbne hbp.2 htailP (lowerS (c :: lit0))]
    have hb3 := List.all_eq_true.mp hbad b hbmem
    simpa using hb3
  have hqc : ((c = '.' : Bool) || (c = ' ' : Bool)) = false := by
    rw [hc2, spaceEqFalse hc1]
    rfl
  have hsds : stripDotSpace ((c :: lit0) ++ ds ++ [')']) = (c :: lit0) ++ ds ++ [')'] := by
    rw [hform]
    unfold stripDotSpace
    exact stripPKeepG (lit0 ++ ds) hqc (by decide)
  have hstrip : pyStrip ((c :: lit0) ++ ds ++ [')']) = (c :: lit0) ++ ds ++ [')'] := by
    rw [hform]
    unfold pyStrip
    exact stripPKeepG (lit0 ++ ds) hc1 (by decide)
  refine ⟨hstrip, by rw [hform]; simp, ?_⟩
  apply causeKeepOfAux
  · apply dtcSearchNone
    rw [List.append_assoc, run4AppendFalse hnd]
    apply run4Short
    simp
    omega
  · unfold causeKeepAux
    simp only [Bool.and_eq_true, Bool.not_eq_true', decide_eq_true_eq]
    refine ⟨⟨⟨⟨hAval, by omega⟩, ?_⟩, ?_⟩, by omega⟩
    · rw [hsds]
      exact sufLDotsParen ((c :: lit0) ++ ds)
    · rw [hlow]
      have hfil : ∀ (n : Str), n.all (fun ch => !(ch.isDigit || ch = ')')) = true →
          preL n (lowerS (c :: lit0) ++ (ds ++ [')'])) = preL n (lowerS (c :: lit0)) :=
        fun n hnn => preLMixed hnn (lowerS (c :: lit0)) _ htailP
      rw [hfil _ (by decide), hfil _ (by decide), hfil _ (by decide)]
      simpa using hpre

/-- The canonical P0705 causes are strip-fixed, non-empty, and pass the cause
filter for every code. -/
theorem p0705CausesOk (code : Str) : ∀ x ∈ p0705Causes,
    pyStrip x = x ∧ x ≠ [] ∧ causeKeep code x = true := by
  intro x hx
  simp only [p0705Causes, List.mem_cons, List.not_mem_nil, or_false] at hx
  rcases hx with rfl | rfl | rfl | rfl
  · exact ⟨by decide, by decide, causeKeepOfAux (by decide) (by decide)⟩
  · exact ⟨by decide, by decide, causeKeepOfAux (by decide) (by decide)⟩
  · exact ⟨by decide, by decide, causeKeepOfAux (by decide) (by decide)⟩
  · exact ⟨by decide, by decide, causeKeepOfAux (by decide) (by decide)⟩

/-- The canonical misfire causes (for any in-range cylinder number) are
strip-fixed, non-empty, and pass the cause filter for every code. -/
theorem p03CauseListOk (code : Str) {o : Option Nat} (ho : ∀ n, o = some n → n < 100) :
    ∀ x ∈ p03CauseList o, pyStrip x = x ∧ x ≠ [] ∧ causeKeep code x = true := by
  intro x hx
  cases o with
  | none =>
    simp only [p03CauseList, p03CauseList.p03CauseListGeneric, List.mem_cons,
      List.not_mem_nil, or_false] at hx
    rcases hx with rfl | rfl | rfl | rfl | rfl | rfl
    · exact ⟨by decide, by decide, causeKeepOfAux (by decide) (by decide)⟩
    · exact ⟨by decide, by decide, causeKeepOfAux (by decide) (by decide)⟩
    · exact ⟨by decide, by decide, causeKeepOfAux (by decide) (by decide)⟩
    · exact ⟨by decide, by decide, causeKeepOfAux (by decide) (by decide)⟩
    · exact ⟨by decide, by decide, causeKeepOfAux (by decide) (by decide)⟩
    · exact ⟨by decide, by decide, causeKeepOfAux (by decide) (by decide)⟩
  | some n =>
    have h100 : n < 100 := ho n rfl
    by_cases hn : n = 0
    · subst hn
      simp only [p03CauseList, ne_eq, not_true_eq_false, if_false,
        p03CauseList.p03CauseListGeneric, List.mem_cons, List.not_mem_nil, or_false] at hx
      rcases hx with rfl | rfl | rfl | rfl | rfl | rfl
      · exact ⟨by decide, by decide, causeKeepOfAux (by decide) (by decide)⟩
      · exact ⟨by decide, by decide, causeKeepOfAux (by decide) (by decide)⟩
      · exact ⟨by decide, by decide, causeKeepOfAux (by decide) (by decide)⟩
      · exact ⟨by decide, by decide, causeKeepOfAux (by decide) (by decide)⟩
      · exact ⟨by decide, by decide, causeKeepOfAux (by decide) (by decide)⟩
      · exact ⟨by decide, by decide, causeKeepOfAux (by decide) (by decide)⟩
    · have hnd := natStrDigits h100
      simp only [p03CauseList] at hx
      rw [if_pos hn] at hx
      simp only [List.mem_cons, List.not_mem_nil, or_false] at hx
      rcases hx with rfl | rfl | rfl | rfl | rfl | rfl
      · exact paramStringOk code (by decide) hnd.1 hnd.2.1 hnd.2.2
      · exact paramStringOk code (by decide) hnd.1 hnd.2.1 hnd.2.2
      · exact paramStringOk code (by decide) hnd.1 hnd.2.1 hnd.2.2
      · exact ⟨by decide, by decide, causeKeepOfAux (by decide) (by decide)⟩
      · exact paramStringOk code (by decide) hnd.1 hnd.2.1 hnd.2.2
      · exact paramStringOk code (by decide) hnd.1 hnd.2.1 hnd.2.2

/-- Elements of the sanitized causes are strip-fixed, non-empty, and pass the
cause filter. -/
theorem causesPreMem {code : Str} {l : List Str} {x : Str} (h : x ∈ causesPre code l) :
    pyStrip x = x ∧ x ≠ [] ∧ causeKeep code x = true := by
  unfold causesPre at h
  have h2 : x ∈ dedupeGo [] ((stripNonempty l).filter (causeKeep code)) :=
    List.take_subset _ _ h
  obtain ⟨p1, p2, _, y, hy, hxy⟩ := dedupeGoMem h2
  have hkeep : causeKeep code y = true := List.of_mem_filter hy
  have hyS : y ∈ stripNonempty l := List.mem_of_mem_filter hy
  have hyfix : pyStrip y = y := by
    unfold stripNonempty at hyS
    obtain ⟨z, _, hz⟩ := List.mem_map.mp (List.mem_of_mem_filter hyS)
    rw [← hz]
    exact pyStripIdem z
  rw [hyfix] at hxy
  subst hxy
  exact ⟨p1, p2, hkeep⟩

/-- The sanitized causes are case-insensitively distinct and at most 6 long. -/
theorem causesPreShape (code : Str) (l : List Str) :
    ((causesPre code l).map lowerS).Nodup ∧ (causesPre code l).length ≤ 6 := by
  constructor
  · unfold causesPre
    rw [List.map_take]
    exact (dedupeGoNodup _ []).sublist (List.take_sublist 6 _)
  · unfold causesPre
    exact List.length_take_le 6 _

/-- The causes pipeline (lines 86-112) fixes any list of at most 6
strip-fixed, non-empty, filter-passing causes with distinct lower-cased
forms. -/
theorem causesPreFix {code : Str} {L : List Str}
    (hmem : ∀ x ∈ L, pyStrip x = x ∧ x ≠ [] ∧ causeKeep code x = true)
    (hnd : (L.map lowerS).Nodup) (hlen : L.length ≤ 6) :
    causesPre code L = L := by
  unfold causesPre
  have h1 : stripNonempty L = L := by
    unfold stripNonempty
    rw [mapEqSelf (fun x hx => (hmem x hx).1)]
    refine List.filter_eq_self.mpr ?_
    intro x hx
    have hne := (hmem x hx).2.1
    cases x with
    | nil => exact absurd rfl hne
    | cons a t => rfl
  rw [h1]
  rw [List.filter_eq_self.mpr (fun x hx => (hmem x hx).2.2)]
  show (dedupeGo [] L).take 6 = L
  rw [dedupeGoFix [] (fun x hx => ⟨(hmem x hx).1, (hmem x hx).2.1⟩) hnd
    (by simp)]
  exact List.take_of_length_le hlen

/-- The causes pipeline (lines 86-112) is idempotent. -/
theorem causesPreIdem (code : Str) (l : List Str) :
    causesPre code (causesPre code l) = causesPre code l :=
  causesPreFix (fun _ hx => causesPreMem hx) (causesPreShape code l).1
    (causesPreShape code l).2

/-- The causes pipeline fixes the capped de-duplication of any canonical list
whose elements are strip-fixed, non-empty and filter-passing. -/
theorem canonCausesFix {code : Str} {C : List Str}
    (hC : ∀ y ∈ C, pyStrip y = y ∧ y ≠ [] ∧ causeKeep code y = true) :
    causesPre code ((dedupe_str_list C).take 6) = (dedupe_str_list C).take 6 := by
  apply causesPreFix
  · intro x hx
    have h2 : x ∈ dedupeGo [] C := List.take_subset _ _ hx
    obtain ⟨p1, p2, _, y, hy, hxy⟩ := dedupeGoMem h2
    have hys := hC y hy
    rw [hys.1] at hxy
    subst hxy
    exact ⟨p1, p2, hys.2.2⟩
  · show ((dedupeGo [] C).take 6 |>.map lowerS).Nodup
    rw [List.map_take]
    exact (dedupeGoNodup _ []).sublist (List.take_sublist 6 _)
  · exact List.length_take_le 6 _

/-- The cylinder number derived by `cyl_num = int(cyl) % 100` is below 100. -/
theorem cylNumOfLt {s : Str} {n : Nat} (h : cylNumOf s = some n) : n < 100 := by
  simp only [cylNumOf] at h
  split_ifs at h
  · injection h with h2
    rw [← h2]
    exact Nat.mod_lt _ (by norm_num)

/-- The final causes are the sanitized causes or one of the two canonical
backfill lists. -/
theorem causesFinalShape (code : Str) (X : List Str) :
    causesFinal code X = causesPre code X ∨
    causesFinal code X =
      (dedupe_str_list (p03CauseList (cylNumOf (pyStrip (upperS code))))).take 6 ∨
    causesFinal code X = (dedupe_str_list p0705Causes).take 6 := by
  simp only [causesFinal]
  split_ifs <;> first
    | exact Or.inl rfl
    | exact Or.inr (Or.inl rfl)
    | exact Or.inr (Or.inr rfl)

/-- For a misfire code, the final causes are the canonical misfire list or
have at least 3 entries. -/
theorem causesFinalBranch03 (code : Str) (X : List Str)
    (hp3 : reMatchP03 (pyStrip (upperS code)) = true) :
    causesFinal code X =
      (dedupe_str_list (p03CauseList (cylNumOf (pyStrip (upperS code))))).take 6 ∨
    ¬ (causesFinal code X).length < 3 := by
  have hA : ¬ pyStrip (upperS code) = (r"P0705").data := by
    intro hh
    rw [hh] at hp3
    exact absurd hp3 (by decide)
  simp only [causesFinal]
  rw [if_neg hA, if_pos hp3]
  split
  · exact Or.inl rfl
  · next h => exact Or.inr h

/-- For P0705, the final causes are the canonical P0705 list or have at least
3 entries. -/
theorem causesFinalBranch705 (code : Str) (X : List Str)
    (h705 : pyStrip (upperS code) = (r"P0705").data) :
    causesFinal code X = (dedupe_str_list p0705Causes).take 6 ∨
    ¬ (causesFinal code X).length < 3 := by
  have hp3 : ¬ reMatchP03 (pyStrip (upperS code)) = true := by
    rw [h705]
    decide
  simp only [causesFinal]
  rw [if_neg hp3, if_pos h705]
  split
  · exact Or.inl rfl
  · next h => exact Or.inr h

/-- `causesFinal` fixes any list fixed by the causes pipeline that is canonical
or long enough not to trigger the backfills. -/
theorem causesFinalFix {code : Str} {Z : List Str} (hfix : causesPre code Z = Z)
    (h03 : reMatchP03 (pyStrip (upperS code)) = true →
      Z = (dedupe_str_list (p03CauseList (cylNumOf (pyStrip (upperS code))))).take 6 ∨
      ¬ Z.length < 3)
    (h705 : pyStrip (upperS code) = (r"P0705").data →
      Z = (dedupe_str_list p0705Causes).take 6 ∨ ¬ Z.length < 3) :
    causesFinal code Z = Z := by
  simp only [causesFinal, hfix]
  by_cases hA : pyStrip (upperS code) = (r"P0705").data
  · have hp3 : ¬ reMatchP03 (pyStrip (upperS code)) = true := by
      rw [hA]
      decide
    rw [if_neg hp3, if_pos hA]
    rcases h705 hA with hz | hz
    · rw [hz]
      exact ite_self _
    · rw [if_neg hz]
  · rw [if_neg hA]
    by_cases hp3 : reMatchP03 (pyStrip (upperS code)) = true
    · rw [if_pos hp3]
      rcases h03 hp3 with hz | hz
      · rw [hz]
        exact ite_self _
      · rw [if_neg hz]
    · rw [if_neg hp3]

/-- The full causes computation of `_sanitize_summary` (lines 86-112 followed
by the canonical backfills of lines 163-176 and 188-195) is idempotent. -/
theorem causesFinalIdem (code : Str) (X : List Str) :
    causesFinal code (causesFinal code X) = causesFinal code X := by
  have hfix : causesPre code (causesFinal code X) = causesFinal code X := by
    rcases causesFinalShape code X with h | h | h
    · rw [h]
      exact causesPreIdem code X
    · rw [h]
      exact canonCausesFix (p03CauseListOk code (fun n hn => cylNumOfLt hn))
    · rw [h]
      exact canonCausesFix (p0705CausesOk code)
  exact causesFinalFix hfix (causesFinalBranch03 code X) (causesFinalBranch705 code X)

/-- C2, counterexample: `_sanitize_summary` is not idempotent.  At code P0100
with description "stack overflow what is the meaning" and cause "wiring damage
in the harness", the first pass truncates the description to "stack overflow"
and synthesizes three checks; the second pass truncates the description to
empty (then backfills it from the harness keyword) and drops the synthesized
check without an allowed verb, so the two passes disagree on the description
and checks fields. -/
theorem C2_counterexample :
    sanitize_summary (r"P0100").data
      (sanitize_summary (r"P0100").data
        ⟨(r"stack overflow what is the meaning").data,
         [(r"wiring damage in the harness").data], []⟩) ≠
    sanitize_summary (r"P0100").data
      ⟨(r"stack overflow what is the meaning").data,
       [(r"wiring damage in the harness").data], []⟩ := by
  decide

/-- C2 (amended): the sanitizer is idempotent on the causes field only — for
every code and summary, re-sanitizing leaves the already-sanitized causes
unchanged.  (The description and checks fields are not idempotent, see the
counterexample.) -/
theorem C2_sanitize_idempotent_on_causes (code : Str) (s : Summary) :
    (sanitize_summary code (sanitize_summary code s)).causes =
    (sanitize_summary code s).causes := by
  show causesFinal code (causesFinal code s.causes) = causesFinal code s.causes
  exact causesFinalIdem code s.causes

end VDA
